import Mathlib

/-!
Verification of the Astral backend (FastAPI + Gemini + SQL bridge) against its
natural-language specification.

The development is a shallow embedding of the Python sources:
  * `app/services/websocket.py`   — WebSocket `ConnectionManager`
  * `app/services/database_service.py` — `DatabaseService` (direct driver + bridge fallback)
  * `app/services/gemini_service.py`   — `GeminiService` orchestration
  * `app/routes/chat.py`, `app/routes/systems.py`, `app/routes/auth.py` — the routes

Python dictionaries travelling through the services are embedded as a small
JSON value type `JVal`; network and AI effects are embedded as explicit
oracle records (`NetEnv`, `AiEnv`, `DbOracle`), and every outbound call is
recorded in an explicit trace so that "no network call / no model call /
no SQL execution" claims are statements about the trace.
-/

/-- JSON-like values: the embedding of the Python dicts/lists/scalars that
flow through the services (bridge envelopes, schema dicts, row lists). -/
inductive JVal where
  | null
  | bool (b : Bool)
  | num (n : Int)
  | str (s : String)
  | arr (xs : List JVal)
  | obj (fields : List (String × JVal))

/-- Python truthiness of a `JVal` (`if x:`): `None`, `False`, `0`, `""`,
`[]`, `{}` are falsy, everything else is truthy. -/
def JVal.truthy : JVal → Bool
  | .null => false
  | .bool b => b
  | .num n => n != 0
  | .str s => s ≠ ""
  | .arr xs => ¬ xs.isEmpty
  | .obj fs => ¬ fs.isEmpty

/-- Python `dict.get(key, default)`: first binding for `key`, else `default`. -/
def JVal.getD (v : JVal) (key : String) (default : JVal) : JVal :=
  match v with
  | .obj fs =>
    match fs.find? (fun p => p.1 = key) with
    | some p => p.2
    | none => default
  | _ => default

/-- Python `dict.get(key)` (default `None`). -/
def JVal.get (v : JVal) (key : String) : JVal := v.getD key .null

/-- Length of a JSON array (Python `len(data)` on a row list). -/
def JVal.alength : JVal → Nat
  | .arr xs => xs.length
  | _ => 0

/-- A minimal JSON serializer standing in for `json.dumps` (used only to feed
prompt text to the AI oracle; the exact rendering is never relevant). -/
def JVal.dump : JVal → String
  | .null => "null"
  | .bool true => "true"
  | .bool false => "false"
  | .num n => toString n
  | .str s => "\"" ++ s ++ "\""
  | .arr xs => "[" ++ String.intercalate ", " (xs.attach.map (fun x => JVal.dump x.1)) ++ "]"
  | .obj fs => "\x7b" ++
      String.intercalate ", " (fs.attach.map (fun p => "\"" ++ p.1.1 ++ "\": " ++ JVal.dump p.1.2)) ++
      "\x7d"
decreasing_by
  · have := List.sizeOf_lt_of_mem x.2
    simp
    omega
  · have h1 := List.sizeOf_lt_of_mem p.2
    have h2 : sizeOf p.1.2 < sizeOf p.1 := by
      obtain ⟨⟨k, v⟩, hp⟩ := p
      simp
    simp
    omega

/-- Python `\s` / `str.strip()` whitespace: space, tab, newline, carriage
return, form feed, vertical tab. -/
def pyIsSpace (c : Char) : Bool :=
  c = ' ' ∨ c = '\t' ∨ c = '\n' ∨ c = '\r' ∨ c = '\x0c' ∨ c = '\x0b'

/-- Python `str.strip()` on a character list. -/
def pyStripList (s : List Char) : List Char :=
  ((s.dropWhile pyIsSpace).reverse.dropWhile pyIsSpace).reverse

/-- Python `str.strip()`. -/
def pyStrip (s : String) : String := ⟨pyStripList s.data⟩

/-- Python `str.upper()` (ASCII, which is all the code compares). -/
def pyUpper (s : String) : String := ⟨s.data.map Char.toUpper⟩

/-- Python `str.lower()` (ASCII). -/
def pyLower (s : String) : String := ⟨s.data.map Char.toLower⟩

/-- Python `url.rstrip("/")`. -/
def rstripSlash (s : String) : String :=
  ⟨(s.data.reverse.dropWhile (fun c => c = '/')).reverse⟩

/-- Index (relative to the front of `s`) of the first occurrence of `pat` in
`s`, as Python `str.find` / the anchor search of `re.search` computes it. -/
def findSubAux (pat : List Char) : List Char → Nat → Option Nat
  | [], k => if pat = [] then some k else none
  | c :: rest, k =>
    if pat.isPrefixOf (c :: rest) then some k else findSubAux pat rest (k + 1)

/-- First occurrence of `pat` in `s` at an index `≥ start`. -/
def findSubFrom (s pat : List Char) (start : Nat) : Option Nat :=
  (findSubAux pat (s.drop start) 0).map (· + start)

/-- Whether `pat` occurs somewhere in `s`. -/
def occursSub (s pat : List Char) : Bool := (findSubAux pat s 0).isSome

/-! ## `app/services/websocket.py` — `ConnectionManager`

WebSocket objects are embedded as `Nat` identifiers; the process-wide
`active_connections : Dict[int, List[WebSocket]]` becomes an association
list keyed by `user_id` that preserves Python dict insertion order. -/

/-- Embedding of `ConnectionManager.active_connections`. -/
abbrev Registry := List (Nat × List Nat)

/-- Dict lookup `self.active_connections.get(user_id)` / `user_id in ...`. -/
def regLookup (reg : Registry) (user_id : Nat) : Option (List Nat) :=
  (reg.find? (fun p => p.1 = user_id)).map Prod.snd

/-- Replace the binding of `user_id` (the dict entry aliases the mutated list). -/
def regSet (reg : Registry) (user_id : Nat) (conns : List Nat) : Registry :=
  reg.map (fun p => if p.1 = user_id then (p.1, conns) else p)

/-- Embedding of `del self.active_connections[user_id]`. -/
def regErase (reg : Registry) (user_id : Nat) : Registry :=
  reg.filter (fun p => p.1 ≠ user_id)

/-- Method `ConnectionManager.connect` (websocket.py:12-17): accept unconditionally,
create the entry if absent, then append the websocket.  There is no
authentication input at all: any caller may register any `user_id`. -/
def ConnectionManager.connect (reg : Registry) (websocket : Nat) (user_id : Nat) : Registry :=
  match regLookup reg user_id with
  | none => reg ++ [(user_id, [websocket])]
  | some conns => regSet reg user_id (conns ++ [websocket])

/-- Method `ConnectionManager.disconnect` (websocket.py:19-24): remove the first
occurrence of `websocket` from the account's list, dropping the dict entry
when the list becomes empty. -/
def ConnectionManager.disconnect (reg : Registry) (websocket : Nat) (user_id : Nat) : Registry :=
  match regLookup reg user_id with
  | none => reg
  | some conns =>
    let conns' := conns.erase websocket
    if conns'.isEmpty then regErase reg user_id else regSet reg user_id conns'

/-- The body of the `for connection in self.active_connections[user_id]`
loop of `send_personal_message` (websocket.py:28-33), embedded exactly as
CPython executes it: the loop iterates the live list by index while
`self.disconnect` removes (`list.remove`) the first occurrence of a failed
connection from that same list.  `fails c = true` means `connection.send_text`
raises for connection `c`.  Returns the final contents of the list object and
the connections that received the payload, in send order. -/
def sendLoop (fails : Nat → Bool) (lst : List Nat) (i : Nat) (delivered : List Nat) :
    List Nat × List Nat :=
  if h : i < lst.length then
    let c := lst.get ⟨i, h⟩
    if fails c then
      sendLoop fails (lst.erase c) (i + 1) delivered
    else
      sendLoop fails lst (i + 1) (delivered ++ [c])
  else
    (lst, delivered)
termination_by lst.length - i
decreasing_by
  · have hm : lst.get ⟨i, h⟩ ∈ lst := lst.get_mem _ _
    have := List.length_erase_of_mem hm
    omega
  · omega

/-- Method `ConnectionManager.send_personal_message` (websocket.py:26-33): a no-op
when the account has no entry; otherwise run the send loop, mirroring the
in-loop `disconnect` bookkeeping (the dict entry is deleted exactly when the
loop's removals empty the list, which in the source happens inside
`disconnect` the moment the list empties).  Returns the updated registry and
the list of connections the payload was delivered to. -/
def ConnectionManager.send_personal_message (fails : Nat → Bool) (reg : Registry)
    (user_id : Nat) : Registry × List Nat :=
  match regLookup reg user_id with
  | none => (reg, [])
  | some conns =>
    let (conns', delivered) := sendLoop fails conns 0 []
    if conns'.isEmpty ∧ ¬ conns.isEmpty then (regErase reg user_id, delivered)
    else (regSet reg user_id conns', delivered)

/-- Route `websocket_endpoint` (chat.py:24-34): `await manager.connect(websocket,
user_id)` with the `user_id` taken straight from the URL path.  The handler
has no token, cookie, or ownership parameter — nothing ties the caller to the
account it registers under. -/
def websocket_endpoint (reg : Registry) (websocket : Nat) (user_id : Nat) : Registry :=
  ConnectionManager.connect reg websocket user_id

/-! ## `app/services/database_service.py` — `DatabaseService`

`db_config` is embedded as an optional-field record (a Python dict whose
keys may be absent), network effects as a `NetEnv` oracle, and each outbound
attempt as a `NetCall` trace entry. -/

/-- The `connection_params` sub-dict of a `db_config`. -/
structure ConnParams where
  bridge_url : Option String := none
  bridge_api_key : Option String := none
deriving DecidableEq

/-- The `db_config` dict handed to `DatabaseService.__init__`. -/
structure PyDbConfig where
  db_host : Option String := none
  db_port : Option Nat := none
  db_name : Option String := none
  db_username : Option String := none
  db_password : Option String := none
  system_type : Option String := none
  connection_params : Option ConnParams := none
  bridge_url : Option String := none
  bridge_key : Option String := none
deriving DecidableEq

/-- Python `a or b` on optional strings (`None` and `""` are falsy). -/
def pyOrStr (a b : Option String) : Option String :=
  match a with
  | some s => if s = "" then b else some s
  | none => b

/-- Truthiness of an optional string (`if not self._bridge_url`). -/
def strTruthy : Option String → Bool
  | some s => s ≠ ""
  | none => false

/-- Embedding of `self._conn_params = self.db_config.get("connection_params") or` the empty dict. -/
def DatabaseService.connParams (cfg : PyDbConfig) : ConnParams :=
  cfg.connection_params.getD {}

/-- Attribute `self._bridge_url` (database_service.py:22). -/
def DatabaseService.bridgeUrl (cfg : PyDbConfig) : Option String :=
  pyOrStr (DatabaseService.connParams cfg).bridge_url cfg.bridge_url

/-- Attribute `self._bridge_key` (database_service.py:23). -/
def DatabaseService.bridgeKey (cfg : PyDbConfig) : Option String :=
  pyOrStr (DatabaseService.connParams cfg).bridge_api_key cfg.bridge_key

/-- Attribute `self._system_type`, i.e. `(self.db_config.get("system_type") or "mysql").lower()`. -/
def DatabaseService.systemType (cfg : PyDbConfig) : String :=
  pyLower ((pyOrStr cfg.system_type (some "mysql")).getD "mysql")

/-- One outbound network attempt made by `DatabaseService`. -/
inductive NetCall where
  | directConnect (system_type : String)         -- driver connection attempt
  | directSql (query : String)                   -- `cursor.execute(query)` on the direct connection
  | bridgePost (url : String) (action : String)  -- HTTP POST to the bridge
deriving DecidableEq, Repr

/-- Outcome of an HTTP POST to the bridge. -/
inductive BridgeNet where
  | netError (e : String)   -- `httpx` raises (connect error, timeout, ...)
  | nonJson (text : String) -- 200-ish response whose body is not JSON
  | json (v : JVal)         -- JSON body, returned as-is

/-- Oracle for the network world a `DatabaseService` call runs in. -/
structure NetEnv where
  /-- whether the direct driver connection (`pymysql.connect` /
  `psycopg2.connect`) succeeds -/
  directConnectOk : Bool
  /-- Embedding of `cursor.execute(q)` on the direct connection: either raises or yields
  (`fetchall()` rows, `cursor.rowcount`) -/
  runDirect : String → Except String (List JVal × Int)
  /-- the bridge endpoint, keyed by the `?action=` discriminator and the
  JSON payload -/
  bridge : String → JVal → BridgeNet

/-- Method `DatabaseService._call_bridge` (database_service.py:29-54): with no
bridge URL configured, return the config-error envelope without any network
attempt; otherwise POST and map network errors and non-JSON bodies to
`success:false` envelopes. -/
def DatabaseService.call_bridge (cfg : PyDbConfig) (env : NetEnv) (action : String)
    (payload : JVal) : JVal × List NetCall :=
  if ¬ strTruthy (DatabaseService.bridgeUrl cfg) then
    (.obj [("success", .bool false), ("message", .str "Bridge URL not provided")], [])
  else
    let url := (DatabaseService.bridgeUrl cfg).getD ""
    let url_with_action := rstripSlash url ++ "?action=" ++ action
    match env.bridge action payload with
    | .netError e => (.obj [("success", .bool false), ("message", .str e)],
                      [.bridgePost url_with_action action])
    | .nonJson t => (.obj [("success", .bool false),
                           ("message", .str ("Bridge returned non-json: " ++ t))],
                     [.bridgePost url_with_action action])
    | .json v => (v, [.bridgePost url_with_action action])

/-- Method `DatabaseService.connect` (database_service.py:88-108): attempt a direct
driver connection for the supported engine families; an unsupported
`system_type` returns `False` without any network attempt; driver exceptions
are swallowed (returns `False`) to trigger the bridge fallback. -/
def DatabaseService.connect (cfg : PyDbConfig) (env : NetEnv) : Bool × List NetCall :=
  if DatabaseService.systemType cfg = "mysql" ∨ DatabaseService.systemType cfg = "mariadb" then
    (env.directConnectOk, [.directConnect (DatabaseService.systemType cfg)])
  else if DatabaseService.systemType cfg = "postgres" ∨ DatabaseService.systemType cfg = "postgresql" then
    (env.directConnectOk, [.directConnect (DatabaseService.systemType cfg)])
  else
    (false, [])

/-- The bridge payload built by `test_connection` / `get_table_schema`
(database_service.py:142-150, 200-208): the connection descriptor. -/
def DatabaseService.bridgePayload (cfg : PyDbConfig) : JVal :=
  .obj [("system_type", .str (DatabaseService.systemType cfg)),
        ("db_host", (cfg.db_host.map JVal.str).getD .null),
        ("db_port", (cfg.db_port.map (fun n => JVal.num n)).getD .null),
        ("db_name", (cfg.db_name.map JVal.str).getD .null),
        ("db_username", (cfg.db_username.map JVal.str).getD .null),
        ("db_password", (cfg.db_password.map JVal.str).getD .null)]

/-- Method `DatabaseService.test_connection` (database_service.py:118-151): try the
direct connection and a `SELECT 1` probe; fall back to `POST ?action=test`
on the bridge. -/
def DatabaseService.test_connection (cfg : PyDbConfig) (env : NetEnv) : JVal × List NetCall :=
  let st := DatabaseService.systemType cfg
  let (direct_ok, t0) := DatabaseService.connect cfg env
  let directTry : Option (JVal × List NetCall) :=
    if direct_ok then
      match env.runDirect "SELECT 1 as connection_test" with
      | .ok (rows, _) =>
        let row := rows.head?.getD .null
        let msg := if st = "mysql" ∨ st = "mariadb" then "Direct MySQL connection successful"
                   else "Direct Postgres connection successful"
        some (.obj [("success", .bool true), ("message", .str msg), ("data", row),
                    ("method", .str "direct")],
              t0 ++ [.directSql "SELECT 1 as connection_test"])
      | .error _ => none  -- `logger.warning(...)`, fall through to the bridge
    else none
  match directTry with
  | some r => r
  | none =>
    let tDirect := t0 ++ (if direct_ok then [.directSql "SELECT 1 as connection_test"] else [])
    let (r, tb) := DatabaseService.call_bridge cfg env "test" (DatabaseService.bridgePayload cfg)
    (r, tDirect ++ tb)

/-- The per-table body of the direct MySQL schema loop
(database_service.py:167-175): `DESCRIBE` the table and collect its column
names; a missing `Field` key raises, failing the whole direct attempt. -/
def describeTable (env : NetEnv) (table_name : String) :
    Except String (String × JVal) × List NetCall :=
  let q := "DESCRIBE `" ++ table_name ++ "`"
  match env.runDirect q with
  | .error e => (.error e, [.directSql q])
  | .ok (columns, _) =>
    let fields := columns.map (fun c => c.get "Field")
    if fields.any (fun f => match f with | .null => true | _ => false) then
      (.error "KeyError: Field", [.directSql q])
    else
      (.ok (table_name, .obj [("columns", .arr fields), ("column_details", .arr columns)]),
       [.directSql q])

/-- The `pymysql` DictCursor rows of `SHOW TABLES` are single-entry dicts; the
source takes `list(t.values())[0]`, raising on anything else. -/
def firstValueName : JVal → Except String String
  | .obj ((_, .str name) :: _) => .ok name
  | _ => .error "IndexError"

/-- The direct MySQL branch of `get_table_schema`
(database_service.py:163-175): `SHOW TABLES`, then `DESCRIBE` each table. -/
def directMysqlSchema (env : NetEnv) : Except String JVal × List NetCall :=
  match env.runDirect "SHOW TABLES" with
  | .error e => (.error e, [.directSql "SHOW TABLES"])
  | .ok (tables, _) =>
    let step := fun (acc : Except String (List (String × JVal)) × List NetCall) (t : JVal) =>
      match acc.1 with
      | .error e => (.error e, acc.2)
      | .ok schema =>
        match firstValueName t with
        | .error e => (Except.error e, acc.2)
        | .ok name =>
          let (r, tr) := describeTable env name
          match r with
          | .error e => (Except.error e, acc.2 ++ tr)
          | .ok entry => (Except.ok (schema ++ [entry]), acc.2 ++ tr)
    let (r, tr) := tables.foldl step (.ok [], [.directSql "SHOW TABLES"])
    match r with
    | .error e => (.error e, tr)
    | .ok schema =>
      (.ok (.obj [("success", .bool true), ("schema", .obj schema),
                  ("table_count", .num schema.length), ("method", .str "direct")]), tr)

/-- The direct Postgres branch of `get_table_schema`
(database_service.py:176-194), analogous to the MySQL one over
`information_schema`. -/
def directPostgresSchema (env : NetEnv) : Except String JVal × List NetCall :=
  let listQ := "SELECT table_name FROM information_schema.tables WHERE table_schema = public AND table_type=BASE TABLE"
  match env.runDirect listQ with
  | .error e => (.error e, [.directSql listQ])
  | .ok (tables, _) =>
    let step := fun (acc : Except String (List (String × JVal)) × List NetCall) (t : JVal) =>
      match acc.1 with
      | .error e => (.error e, acc.2)
      | .ok schema =>
        match t.get "table_name" with
        | .str name =>
          let q := "SELECT column_name, data_type, is_nullable FROM information_schema.columns WHERE table_name = " ++ name
          match env.runDirect q with
          | .error e => (Except.error e, acc.2 ++ [.directSql q])
          | .ok (cols, _) =>
            let names := cols.map (fun c => c.get "column_name")
            (Except.ok (schema ++ [(name, .obj [("columns", .arr names),
                                                ("column_details", .arr cols)])]),
             acc.2 ++ [.directSql q])
        | _ => (Except.error "KeyError: table_name", acc.2)
    let (r, tr) := tables.foldl step (.ok [], [.directSql listQ])
    match r with
    | .error e => (.error e, tr)
    | .ok schema =>
      (.ok (.obj [("success", .bool true), ("schema", .obj schema),
                  ("table_count", .num schema.length), ("method", .str "direct")]), tr)

/-- Method `DatabaseService.get_table_schema` (database_service.py:153-209): try the
direct schema walk, fall back to `POST ?action=schema` on the bridge. -/
def DatabaseService.get_table_schema (cfg : PyDbConfig) (env : NetEnv) : JVal × List NetCall :=
  let st := DatabaseService.systemType cfg
  let (direct_ok, t0) := DatabaseService.connect cfg env
  let directTry : Except String JVal × List NetCall :=
    if direct_ok then
      if st = "mysql" ∨ st = "mariadb" then directMysqlSchema env
      else directPostgresSchema env
    else (.error "no direct connection", [])
  match directTry with
  | (.ok v, tr) => (v, t0 ++ tr)
  | (.error _, tr) =>
    let (r, tb) := DatabaseService.call_bridge cfg env "schema" (DatabaseService.bridgePayload cfg)
    (r, t0 ++ tr ++ tb)

/-- Method `DatabaseService.execute_query` (database_service.py:211-253): try direct
execution (rows for a `SELECT`, `rowcount` otherwise), fall back to
`POST ?action=execute` with the literal SQL text in the payload. -/
def DatabaseService.execute_query (cfg : PyDbConfig) (env : NetEnv) (query : String) :
    JVal × List NetCall :=
  let (direct_ok, t0) := DatabaseService.connect cfg env
  let directTry : Except String JVal × List NetCall :=
    if direct_ok then
      match env.runDirect query with
      | .error e => (.error e, [.directSql query])
      | .ok (rows, rowcount) =>
        if (pyUpper (pyStrip query)).startsWith "SELECT" then
          (.ok (.obj [("success", .bool true), ("data", .arr rows),
                      ("row_count", .num rows.length), ("method", .str "direct")]),
           [.directSql query])
        else
          (.ok (.obj [("success", .bool true), ("affected_rows", .num rowcount),
                      ("method", .str "direct")]),
           [.directSql query])
    else (.error "no direct connection", [])
  match directTry with
  | (.ok v, tr) => (v, t0 ++ tr)
  | (.error _, tr) =>
    let payload := match DatabaseService.bridgePayload cfg with
      | .obj fs => JVal.obj (fs ++ [("query", .str query)])
      | v => v
    let (r, tb) := DatabaseService.call_bridge cfg env "execute" payload
    (r, t0 ++ tr ++ tb)

/-! ## `app/services/gemini_service.py` — `GeminiService`

The generative model is an oracle `AiEnv`; the `db_service` argument of the
orchestration methods is a duck-typed object embedded as a `DbOracle` whose
calls may raise.  Every model call and database call the orchestration makes
is recorded as a `SvcCall`. -/

/-- Oracle for `self.model.generate_content(prompt).text`: per prompt, either
the returned free text or a raised exception. -/
structure AiEnv where
  generate : String → Except String String

/-- The `db_service` object passed into the orchestration: each operation
either returns its envelope dict or raises. -/
structure DbOracle where
  get_table_schema : Except String JVal
  execute_query : String → Except String JVal

/-- One call the orchestration makes to the outside world. -/
inductive SvcCall where
  | schemaFetch                 -- `db_service.get_table_schema()`
  | execQuery (sql : String)    -- `db_service.execute_query(sql)`
  | genContent (prompt : String) -- `self.model.generate_content(prompt)`
deriving DecidableEq

/-- Result dict of `explore_database_adaptively` (one record with defaulted
fields stands for the per-branch dict shapes of the source). -/
structure Exploration where
  status : String
  tables : List String := []
  table_count : Nat := 0
  database_content : List (String × JVal) := []
  sample_insights : List String := []
  error : Option String := none

/-- Method `GeminiService.explore_database_adaptively`
(gemini_service.py:20-64): fetch the schema (empty or failed ⇒ `no_tables`),
then sample up to 3 rows per table via `execute_query`, skipping tables whose
sampling raises; its own exceptions are caught and become `status = "error"`. -/
def GeminiService.explore_database_adaptively (db : DbOracle) : Exploration × List SvcCall :=
  match db.get_table_schema with
  | .error e => ({ status := "error", error := some e }, [.schemaFetch])
  | .ok schema_result =>
    let table_schema :=
      if (schema_result.get "success").truthy then schema_result.getD "schema" (.obj [])
      else .obj []
    if ¬ table_schema.truthy then
      ({ status := "no_tables", tables := [] }, [.schemaFetch])
    else
      match table_schema with
      | .obj entries =>
        let step := fun (acc : List (String × JVal) × List String × List SvcCall)
                        (entry : String × JVal) =>
          let (content, insights, tr) := acc
          let (table_name, table_info) := entry
          let q := "SELECT * FROM " ++ table_name ++ " LIMIT 3"
          match db.execute_query q with
          | .error _ => (content, insights, tr ++ [.execQuery q])  -- warn and `continue`
          | .ok result =>
            if (result.get "success").truthy ∧ (result.get "data").truthy then
              let sample_data := result.get "data"
              let cols := table_info.getD "columns" (.arr [])
              (content ++ [(table_name,
                  .obj [("columns", cols), ("sample_data", sample_data),
                        ("sample_size", .num sample_data.alength)])],
               insights ++ ["Tabel " ++ table_name ++ ": " ++ toString sample_data.alength ++
                            " sample records dengan kolom " ++ cols.dump],
               tr ++ [.execQuery q])
            else (content, insights, tr ++ [.execQuery q])
        let (content, insights, tr) := entries.foldl step ([], [], [.schemaFetch])
        ({ status := "success", tables := entries.map Prod.fst,
           table_count := entries.length, database_content := content,
           sample_insights := insights }, tr)
      | _ => ({ status := "error", error := some "TypeError: items" }, [.schemaFetch])

/-- Method `GeminiService._prepare_database_context` (gemini_service.py:121-135). -/
def GeminiService.prepare_database_context (e : Exploration) : String :=
  if e.status ≠ "success" then "Database tidak dapat diakses"
  else
    let context := "Database memiliki " ++ toString e.table_count ++ " tabel: " ++
      String.intercalate ", " e.tables
    if ¬ e.sample_insights.isEmpty then
      context ++ "\n\nSample data yang terdeteksi:\n" ++
        String.intercalate "\n" e.sample_insights
    else context

/-- Method `GeminiService._build_adaptive_prompt` (gemini_service.py:137-196).
The f-string's leading indentation is dropped; the prompt only keys the
`AiEnv` oracle, so its exact rendering never matters to a claim. -/
def GeminiService.build_adaptive_prompt (user_query db_context : String)
    (e : Exploration) : String :=
  "Anda adalah asisten AI yang sangat fleksibel dan adaptif. User dapat bertanya " ++
  "APA SAJA, dan Anda harus merespons dengan cara yang paling membantu berdasarkan " ++
  "database yang tersedia.\n\n" ++
  "KONTEKS DATABASE:\n" ++ db_context ++ "\n\n" ++
  "ISI DATABASE DETAIL:\n" ++ (JVal.obj e.database_content).dump ++ "\n\n" ++
  "PERTANYAAN USER: \"" ++ user_query ++ "\"\n\n" ++
  "INSTRUKSI FLEKSIBEL:\n" ++
  "1. PERTIMBANGAN AWAL: Pahami intent user - apakah mereka butuh data, penjelasan, " ++
  "bantuan teknis, atau sesuatu yang lain?\n" ++
  "2. ADAPTASI: Sesuaikan respons Anda dengan apa yang tersedia di database\n" ++
  "3. JIKA RELEVAN: Sarankan query SQL yang berguna (jika ada data yang sesuai)\n" ++
  "4. JIKA TIDAK RELEVAN: Berikan respons umum yang membantu tanpa data\n" ++
  "5. JIKA TIDAK PAHAM: Akui dengan jujur dan tawarkan bantuan alternatif\n" ++
  "6. SELALU: Bersikap helpful, informatif, dan natural\n\n" ++
  "JENIS PERTANYAAN & CONTOH RESPONS:\n\n" ++
  "PERTANYAAN TENTANG DATA:\n" ++
  "User: \"berapa total penjualan?\"\n" ++
  "AI: \"Saya akan cek data penjualan Anda. [SQL: SELECT COUNT(*) FROM sales]\"\n" ++
  "\"Berdasarkan data, total penjualan adalah 150 transaksi.\"\n\n" ++
  "PERTANYAAN TENTANG STRUKTUR:\n" ++
  "User: \"tabel apa saja yang ada?\"\n" ++
  "AI: \"Database Anda memiliki 3 tabel: products, customers, orders. Mau lihat " ++
  "data dari tabel mana?\"\n\n" ++
  "PERTANYAAN BISNIS:\n" ++
  "User: \"bagaimana performa bisnis?\"\n" ++
  "AI: \"Saya analisis data Anda. [SQL terkait] Berdasarkan data, revenue bulan ini " ++
  "Rp 50jt dengan 100 transaksi.\"\n\n" ++
  "PERTANYAAN TEKNIS:\n" ++
  "User: \"cara query data customer?\"\n" ++
  "AI: \"Untuk melihat data customer, gunakan: SELECT * FROM customers LIMIT 10\"\n\n" ++
  "PERTANYAAN UMUM:\n" ++
  "User: \"halo\"\n" ++
  "AI: \"Halo! Saya siap membantu analisis database Anda. Ada yang bisa saya bantu?\"\n\n" ++
  "PERTANYAAN TIDAK RELEVAN:\n" ++
  "User: \"cuaca hari ini bagaimana?\"\n" ++
  "AI: \"Saya fokus membantu analisis database Anda. Untuk cuaca, mungkin butuh " ++
  "sumber lain. Ada yang bisa saya bantu terkait data Anda?\"\n\n" ++
  "FORMAT RESPONS:\n" ++
  "- Natural conversation\n" ++
  "- Jelaskan apa yang Anda lakukan\n" ++
  "- Sertakan data jika ada\n" ++
  "- Tawarkan bantuan lanjutan\n" ++
  "- Jangan buat user bingung\n\n" ++
  "RESPONS ANDA:"

/-- The fenced-block arm of `_extract_sql_query`: Python
`re.search(r'```sql\s*(.*?)\s*```', ai_response, re.DOTALL)` followed by
`.group(1).strip()`.  `re.search` anchors at successive occurrences of the
literal head `\x60\x60\x60sql`; at an anchor `i` the lazy group ends at the
first following `\x60\x60\x60`, and the surrounding greedy `\s*` pair trims
exactly the whitespace that the final `.strip()` would trim, so the arm
yields the stripped text between the anchor and the first closing fence. -/
def reFencedSqlLoop (s : List Char) : Nat → Nat → Option (List Char)
  | 0, _ => none
  | fuel + 1, start =>
    match findSubFrom s ("```sql".data) start with
    | none => none
    | some i =>
      match findSubFrom s ("```".data) (i + 6) with
      | some j => some (pyStripList ((s.drop (i + 6)).take (j - (i + 6))))
      | none => reFencedSqlLoop s fuel (i + 1)

/-- The bracket arm of `_extract_sql_query`: Python
`re.search(r'\[SQL:\s*(.*?)\]', ai_response)` (no DOTALL) followed by
`.group(1).strip()`.  At an anchor `i` the greedy `\s*` consumes the maximal
whitespace run (which may contain newlines); the lazy dot-group then must
reach a `]` without crossing a newline, so the anchor matches exactly when
the first `]` after the run precedes any newline after the run. -/
def reBracketSqlLoop (s : List Char) : Nat → Nat → Option (List Char)
  | 0, _ => none
  | fuel + 1, start =>
    match findSubFrom s ("[SQL:".data) start with
    | none => none
    | some i =>
      let run := ((s.drop (i + 5)).takeWhile pyIsSpace).length
      let runEnd := i + 5 + run
      match findSubFrom s ("]".data) runEnd with
      | none => reBracketSqlLoop s fuel (i + 1)
      | some j =>
        match findSubFrom s ("\n".data) runEnd with
        | some n =>
          if n < j then reBracketSqlLoop s fuel (i + 1)
          else some (pyStripList ((s.drop runEnd).take (j - runEnd)))
        | none => some (pyStripList ((s.drop runEnd).take (j - runEnd)))

/-- Method `GeminiService._extract_sql_query` (gemini_service.py:198-210):
first the fenced ```sql code block, then the bracketed `[SQL: ...]` marker,
else `None`. -/
def GeminiService.extract_sql_query (ai_response : String) : Option String :=
  let s := ai_response.data
  match reFencedSqlLoop s (s.length + 1) 0 with
  | some g => some ⟨g⟩
  | none =>
    match reBracketSqlLoop s (s.length + 1) 0 with
    | some g => some ⟨g⟩
    | none => none

/-- The enhancement prompt of `_enhance_with_data` (gemini_service.py:222-234),
with the f-string indentation dropped. -/
def GeminiService.enhance_prompt (original_response : String) (data : JVal)
    (user_query : String) : String :=
  "RESPONS ASLI AI: " ++ original_response ++ "\n\n" ++
  "HASIL DATA NYATA: " ++ data.dump ++ "\n\n" ++
  "PERTANYAAN USER: \"" ++ user_query ++ "\"\n\n" ++
  "Tugas: Perbaiki respons AI dengan menyertakan data aktual yang didapat.\n" ++
  "Buat respons yang lebih informatif dan akurat berdasarkan data nyata.\n" ++
  "Pertahankan gaya conversational yang natural.\n\n" ++
  "RESPONS YANG DIPERBAIKI:"

/-- Method `GeminiService._enhance_with_data` (gemini_service.py:212-242):
rewrite the narrative with the literal rows; a failing rewrite call falls
back to appending a record count. -/
def GeminiService.enhance_with_data (env : AiEnv) (original_response : String)
    (query_result : JVal) (user_query : String) : String × List SvcCall :=
  if ¬ (query_result.get "success").truthy then (original_response, [])
  else
    let data := query_result.getD "data" (.arr [])
    if ¬ data.truthy then
      (original_response ++ "\n\n Tidak ada data yang ditemukan dengan kriteria tersebut.", [])
    else
      let prompt := GeminiService.enhance_prompt original_response data user_query
      match env.generate prompt with
      | .ok t => (pyStrip t, [.genContent prompt])
      | .error _ =>
        (original_response ++ "\n\n Ditemukan " ++ toString data.alength ++ " record data.",
         [.genContent prompt])

/-- Result dict of `process_free_form_chat` / `process_chat_message`. -/
structure OrchResult where
  response : String
  sql_query : Option String
  query_result : Option JVal
  success : Bool

/-- The `except Exception` arm of `process_free_form_chat`
(gemini_service.py:112-119). -/
def GeminiService.gangguanResult (e : String) : OrchResult :=
  { response := "âŒ Maaf, ada gangguan teknis: " ++ e,
    sql_query := none, query_result := none, success := false }

/-- The canned reply for a table-less database (gemini_service.py:73-79). -/
def GeminiService.noTablesResult : OrchResult :=
  { response := "Saya sudah terhubung ke database, tetapi tidak menemukan tabel apapun. Pastikan database Anda berisi tabel, atau mungkin database yang berbeda?",
    sql_query := none, query_result := none, success := true }

/-- Method `GeminiService.process_free_form_chat` (gemini_service.py:66-119):
explore, prompt, generate, extract SQL, optionally execute and enhance;
exceptions reaching the method body's `try` are converted into the
`gangguanResult` envelope.  Returns the result dict and the trace of
model/database calls. -/
def GeminiService.process_free_form_chat (env : AiEnv) (db : DbOracle)
    (user_query : String) : OrchResult × List SvcCall :=
  let (db_exploration, tr0) := GeminiService.explore_database_adaptively db
  if db_exploration.status = "no_tables" then (GeminiService.noTablesResult, tr0)
  else
    let db_context := GeminiService.prepare_database_context db_exploration
    let prompt := GeminiService.build_adaptive_prompt user_query db_context db_exploration
    match env.generate prompt with
    | .error e => (GeminiService.gangguanResult e, tr0 ++ [.genContent prompt])
    | .ok txt =>
      let ai_response := pyStrip txt
      let sql_query := GeminiService.extract_sql_query ai_response
      if strTruthy sql_query then
        let sq := sql_query.getD ""
        match db.execute_query sq with
        | .error e => (GeminiService.gangguanResult e,
                       tr0 ++ [.genContent prompt, .execQuery sq])
        | .ok query_result =>
          if (query_result.get "success").truthy ∧ (query_result.get "data").truthy then
            let (enhanced_response, tre) :=
              GeminiService.enhance_with_data env ai_response query_result user_query
            let final_response := if enhanced_response ≠ "" then enhanced_response else ai_response
            ({ response := final_response, sql_query := sql_query,
               query_result := some query_result, success := true },
             tr0 ++ [.genContent prompt, .execQuery sq] ++ tre)
          else
            ({ response := ai_response, sql_query := sql_query,
               query_result := some query_result, success := true },
             tr0 ++ [.genContent prompt, .execQuery sq])
      else
        ({ response := ai_response, sql_query := sql_query,
           query_result := none, success := true },
         tr0 ++ [.genContent prompt])

/-- Keyword parameter names accepted by `GeminiService.process_chat_message`
(gemini_service.py:248): `def process_chat_message(self, user_query, db_service)`. -/
def process_chat_message_params : List String := ["user_query", "db_service"]

/-- Keyword arguments used at the call site chat.py:200-205:
`process_chat_message(user_query=..., table_schema=..., db_service=..., system_config=...)`. -/
def send_chat_message_call_kwargs : List String :=
  ["user_query", "table_schema", "db_service", "system_config"]

/-- A Python call binds without a `TypeError` exactly when every keyword
argument names a declared parameter (the signature has no `**kwargs`). -/
def kwargsAccepted (callKwargs sigParams : List String) : Bool :=
  callKwargs.all (fun k => sigParams.contains k)

/-- The first keyword argument the signature does not accept, which CPython
names in the raised `TypeError`. -/
def unexpectedKwarg (callKwargs sigParams : List String) : Option String :=
  callKwargs.find? (fun k => ¬ sigParams.contains k)

/-- Text of the `TypeError` raised for an unexpected keyword argument
(CPython wraps the argument name in quotes; the quotes are elided here). -/
def typeErrorText (fname kw : String) : String :=
  fname ++ "() got an unexpected keyword argument " ++ kw

/-! ## Routes — `app/routes/chat.py`, `app/routes/systems.py`, `app/routes/auth.py`

ORM rows are embedded as records, the relational store as lists in insertion
order (`query(...).filter(...).first()` = `List.find?`), and HTTP error
responses as an `Except` error. -/

/-- A `chat_sessions` row (`app/models/chat.py`). -/
structure ChatSessionRow where
  id : Nat
  user_id : Nat
  system_id : Option Nat := none
  session_name : String := ""
deriving DecidableEq

/-- A `chat_messages` row (`app/models/chat.py`); `query_result` is stored
serialized (`json.dumps`), as in the source. -/
structure ChatMessageRow where
  session_id : Nat
  user_id : Nat
  message : String
  is_user : Bool
  sql_query : Option String := none
  query_result : Option String := none
deriving DecidableEq

/-- A `user_systems` row (`app/models/user.py`). -/
structure UserSystemRow where
  id : Nat
  user_id : Nat
  system_name : String := ""
  system_type : String := "mysql"
  db_host : String := ""
  db_port : Nat := 3306
  db_name : String := ""
  db_username : String := ""
  db_password : String := ""
  connection_params : Option ConnParams := none
  is_active : Bool := true
deriving DecidableEq

/-- A `users` row (`app/models/user.py`), restricted to the fields `login`
reads or writes. -/
structure UserRow where
  id : Nat
  username : String
  hashed_password : String
  is_active : Bool := true
  login_count : Option Nat := some 0
  last_login : Option Nat := none
deriving DecidableEq

/-- The relational store as seen by the chat and systems routes. -/
structure AppDb where
  sessions : List ChatSessionRow := []
  systems : List UserSystemRow := []
  messages : List ChatMessageRow := []

/-- Body schema `ChatMessageCreateSchema` (message + optional `system_id`). -/
structure ChatMessageCreateSchema where
  message : String
  system_id : Option Nat := none
deriving DecidableEq

/-- An HTTP error response (`HTTPException`). -/
structure HTTPError where
  status_code : Nat
  detail : String
deriving DecidableEq

/-- Python `a or b` on optional ints (`None` and `0` are falsy), as in
`system_id = message_data.system_id or session.system_id` (chat.py:150). -/
def pyOrNat (a b : Option Nat) : Option Nat :=
  match a with
  | some n => if n = 0 then b else some n
  | none => b

/-- Truthiness of an optional int (`if system_id:`). -/
def natTruthy : Option Nat → Bool
  | some n => n ≠ 0
  | none => false

/-- The system resolution of the chat-message path (chat.py:156-160): the
filter includes `UserSystem.is_active == True`. -/
def chatResolveSystem (dbs : AppDb) (current_user : Nat) (system_id : Nat) :
    Option UserSystemRow :=
  dbs.systems.find? (fun s =>
    s.id = system_id ∧ s.user_id = current_user ∧ s.is_active = true)

/-- The system resolution of `get_system_schema` (systems.py:181-184): the
filter checks id and owner only — it does NOT check `is_active`. -/
def schemaResolveSystem (dbs : AppDb) (current_user : Nat) (system_id : Nat) :
    Option UserSystemRow :=
  dbs.systems.find? (fun s => s.id = system_id ∧ s.user_id = current_user)

/-- The `db_config` dict built from a `UserSystem` row (chat.py:171-178 and
systems.py:189-196; both omit `system_type`, so `DatabaseService` defaults to
its `"mysql"` branch). -/
def dbConfigOfSystem (system : UserSystemRow) : PyDbConfig :=
  { db_host := some system.db_host,
    db_port := some system.db_port,
    db_name := some system.db_name,
    db_username := some system.db_username,
    db_password := some system.db_password,
    connection_params := some (system.connection_params.getD {}) }

/-- The `system_config` dict built at chat.py:164-168 (carried along but — as
the spec notes — never consumed by the active orchestration path). -/
def systemConfigOfSystem (_system : UserSystemRow) : JVal :=
  .obj [("table_mappings", .obj []), ("field_aliases", .obj []), ("business_rules", .obj [])]

/-- View of a concrete `DatabaseService` as the duck-typed `db_service`
consumed by the orchestration (its methods return their envelopes and do not
raise, exactly like the source service whose bodies catch their exceptions). -/
def dbOracleOfService (cfg : PyDbConfig) (env : NetEnv) : DbOracle :=
  { get_table_schema := .ok (DatabaseService.get_table_schema cfg env).1,
    execute_query := fun q => .ok (DatabaseService.execute_query cfg env q).1 }

/-- Oracles a chat-message request runs against. -/
structure ChatEnv where
  net : NetEnv
  ai : AiEnv

/-- Outcome of `send_chat_message`: the updated store, the persisted
AI-authored row, the schema-probe network trace, and the trace of the calls
the AI-processing step made (empty = the orchestration never ran). -/
structure ChatSendResult where
  dbs : AppDb
  ai_message : ChatMessageRow
  probeTrace : List NetCall
  orchTrace : List SvcCall

/-- Route `send_chat_message` (chat.py:132-276).  After ownership checks it
resolves the effective system, probes its schema, persists the user message,
then attempts the AI step: the call at chat.py:200-205 passes the keyword
arguments `table_schema` and `system_config`, which
`GeminiService.process_chat_message` does not declare, so whether the
orchestration runs is guarded by `kwargsAccepted`; a non-binding call raises
`TypeError`, landing in the `except` arm that persists the
`"Maaf, terjadi error: ..."` fallback row. -/
def send_chat_message (env : ChatEnv) (dbs : AppDb) (current_user : Nat)
    (session_id : Nat) (message_data : ChatMessageCreateSchema) :
    Except HTTPError ChatSendResult :=
  match dbs.sessions.find? (fun s => s.id = session_id ∧ s.user_id = current_user) with
  | none => .error { status_code := 404, detail := "Session not found" }
  | some session =>
    let system_id := pyOrNat message_data.system_id session.system_id
    let system : Option UserSystemRow :=
      if natTruthy system_id then chatResolveSystem dbs current_user (system_id.getD 0)
      else none
    let probe : Option (JVal × List NetCall) :=
      system.map (fun sys => DatabaseService.get_table_schema (dbConfigOfSystem sys) env.net)
    let user_message : ChatMessageRow :=
      { session_id := session_id, user_id := current_user,
        message := message_data.message, is_user := true }
    let step : ChatMessageRow × List SvcCall :=
      match system, probe with
      | some sys, some (table_schema, _) =>
        if table_schema.truthy then
          if kwargsAccepted send_chat_message_call_kwargs process_chat_message_params then
            -- (not reachable with the shipped kwargs) the orchestration itself:
            let (ai_result, tr) := GeminiService.process_free_form_chat env.ai
              (dbOracleOfService (dbConfigOfSystem sys) env.net) message_data.message
            ({ session_id := session_id, user_id := current_user,
               message := ai_result.response, is_user := false,
               sql_query := ai_result.sql_query,
               query_result :=
                 match ai_result.query_result with
                 | some v => if v.truthy then some v.dump else none
                 | none => none }, tr)
          else
            -- `except Exception as e:` (chat.py:219-226) with the TypeError
            ({ session_id := session_id, user_id := current_user,
               message := "Maaf, terjadi error: " ++
                 typeErrorText "process_chat_message"
                   ((unexpectedKwarg send_chat_message_call_kwargs
                        process_chat_message_params).getD ""),
               is_user := false }, [])
        else
          -- probe envelope falsy: falls into the no-system arm with the
          -- untouched default greeting (chat.py:195)
          ({ session_id := session_id, user_id := current_user,
             message := "Halo! Saya Astral AI Assistant. Silakan tanyakan apa saja tentang data Anda.",
             is_user := false }, [])
      | _, _ =>
        let ai_response :=
          if natTruthy system_id then
            "Sistem tidak ditemukan atau tidak aktif. Silakan periksa koneksi sistem Anda."
          else
            "Silakan pilih sistem terlebih dahulu atau hubungkan sistem Anda untuk bertanya tentang data."
        ({ session_id := session_id, user_id := current_user,
           message := ai_response, is_user := false }, [])
    let ai_message := step.1
    .ok { dbs := { dbs with messages := dbs.messages ++ [user_message] ++ [ai_message] },
          ai_message := ai_message,
          probeTrace := (probe.map Prod.snd).getD [],
          orchTrace := step.2 }

/-- Number of keys of a dict (Python `len(...)` at systems.py:205, applied to
the envelope returned by `get_table_schema`). -/
def JVal.olength : JVal → Nat
  | .obj fs => fs.length
  | _ => 0

/-- Route `get_system_schema` (systems.py:174-206): resolve by id and owner
(no active check), then walk the schema via a fresh `DatabaseService`. -/
def get_system_schema (dbs : AppDb) (env : NetEnv) (current_user : Nat)
    (system_id : Nat) : Except HTTPError (JVal × List NetCall) :=
  match schemaResolveSystem dbs current_user system_id with
  | none => .error { status_code := 404, detail := "System not found" }
  | some system =>
    let (schema, tr) := DatabaseService.get_table_schema (dbConfigOfSystem system) env
    .ok (.obj [("system_id", .num system_id),
               ("system_name", .str system.system_name),
               ("schema", schema),
               ("table_count", .num schema.olength)], tr)

/-- Oracles of the credential layer: password verification against the stored
hash and JWT creation (both external to this design). -/
structure AuthEnv where
  verify_password : String → String → Bool
  create_access_token : String → String
  nowTime : Nat

/-- Response schema of `login` (`TokenSchema`). -/
structure TokenSchemaR where
  access_token : String
  token_type : String
deriving DecidableEq

/-- Route `login` (auth.py:46-84): 401 for an unknown username or a failing
password check, 400 for a deactivated account, otherwise bump the login
stats and issue a bearer token.  The second component lists every token
`create_access_token` produced during the request. -/
def login (env : AuthEnv) (users : List UserRow) (username password : String) :
    Except HTTPError (List UserRow × TokenSchemaR) × List String :=
  match users.find? (fun u => u.username = username) with
  | none => (.error { status_code := 401, detail := "Incorrect username or password" }, [])
  | some user =>
    if ¬ env.verify_password password user.hashed_password then
      (.error { status_code := 401, detail := "Incorrect username or password" }, [])
    else if ¬ user.is_active then
      (.error { status_code := 400, detail := "Inactive user" }, [])
    else
      let users' := users.map (fun u =>
        if u.username = username then
          { u with last_login := some env.nowTime,
                   login_count := some ((u.login_count.getD 0) + 1) }
        else u)
      let token := env.create_access_token user.username
      (.ok (users', { access_token := token, token_type := "bearer" }), [token])

/-! ## Concrete fixtures for witnesses and counterexamples -/

/-- A connection profile with no bridge URL anywhere. -/
def cfgNoBridge : PyDbConfig :=
  { db_host := some "db.local", db_port := some 3306, db_name := some "shop",
    db_username := some "astral", db_password := some "secret" }

/-- Network world in which the direct driver connection works. -/
def netDirectOk : NetEnv :=
  { directConnectOk := true,
    runDirect := fun q =>
      if q = "SELECT 1 as connection_test" then .ok ([.obj [("connection_test", .num 1)]], 1)
      else .error "unexpected query",
    bridge := fun _ _ => .netError "bridge unreachable" }

/-- Network world in which the direct driver connection fails but the bridge
would answer happily (to show it is never consulted without a URL). -/
def netDirectFail : NetEnv :=
  { directConnectOk := false,
    runDirect := fun _ => .error "no connection",
    bridge := fun _ _ => .json (.obj [("success", .bool true), ("message", .str "bridge ok")]) }

/-- A soft-deleted (is_active = false) connection profile of account 1. -/
def sysInactive : UserSystemRow :=
  { id := 5, user_id := 1, system_name := "legacy", db_host := "10.0.0.7",
    db_port := 3306, db_name := "erp", db_username := "root", db_password := "pw",
    is_active := false }

/-- Store holding only the soft-deleted profile. -/
def dbsC9 : AppDb := { systems := [sysInactive] }

/-- Network world whose direct path answers the schema walk. -/
def netShowTables : NetEnv :=
  { directConnectOk := true,
    runDirect := fun q =>
      if q = "SHOW TABLES" then .ok ([.obj [("Tables_in_erp", .str "orders")]], 1)
      else if q = "DESCRIBE `orders`" then .ok ([.obj [("Field", .str "id")]], 1)
      else .error "unexpected query",
    bridge := fun _ _ => .netError "bridge down" }

/-- An active profile of account 7. -/
def sysActive3 : UserSystemRow :=
  { id := 3, user_id := 7, system_name := "prod", db_host := "db.prod",
    db_port := 3306, db_name := "shop", db_username := "app", db_password := "pw" }

/-- A session of account 7 bound to profile 3. -/
def sessionBound : ChatSessionRow := { id := 1, user_id := 7, system_id := some 3 }

/-- A session of account 7 bound to nothing. -/
def sessionUnbound : ChatSessionRow := { id := 2, user_id := 7 }

/-- Store as seen by the chat routes in the witnesses. -/
def dbsChat : AppDb := { sessions := [sessionBound, sessionUnbound], systems := [sysActive3] }

/-- Chat oracles: bridge-less network plus a model that is never consulted. -/
def chatEnvW : ChatEnv := { net := netDirectFail, ai := ⟨fun _ => .error "unused"⟩ }

/-- A model that always answers with plain text and no SQL. -/
def envGenHalo : AiEnv := ⟨fun _ => .ok "Halo!"⟩

/-- A `db_service` whose schema fetch raises. -/
def dbSchemaRaises : DbOracle := ⟨.error "boom", fun _ => .error "boom"⟩

/-- A model whose invocation raises. -/
def envGenDown : AiEnv := ⟨fun _ => .error "API down"⟩

/-- A one-table schema envelope. -/
def schemaOneTable : JVal :=
  .obj [("success", .bool true),
        ("schema", .obj [("products", .obj [("columns", .arr [.str "id", .str "name"])])])]

/-- Sample rows for the `products` table. -/
def sampleRows : JVal := .arr [.obj [("id", .num 1), ("name", .str "Widget")]]

/-- A `db_service` with one samplable table whose every other query raises. -/
def dbOneTable : DbOracle :=
  ⟨.ok schemaOneTable,
   fun q =>
     if q = "SELECT * FROM products LIMIT 3" then
       .ok (.obj [("success", .bool true), ("data", sampleRows)])
     else .error "SQL error"⟩

/-- A model that suggests a bracketed SQL statement. -/
def envGenSql : AiEnv := ⟨fun _ => .ok "Saya cek. [SQL: SELECT * FROM products]"⟩

/-- A `db_service` whose schema fetch succeeds with an empty schema dict. -/
def dbEmptySchema : DbOracle :=
  ⟨.ok (.obj [("success", .bool true), ("schema", .obj []), ("table_count", .num 0),
              ("method", .str "direct")]),
   fun _ => .error "never"⟩

/-- A model oracle for flows that must never consult it. -/
def envUnused : AiEnv := ⟨fun _ => .error "never called"⟩

/-- An active account (password hash scheme: `HASH-` ++ password). -/
def userActive : UserRow := { id := 1, username := "alice", hashed_password := "HASH-A" }

/-- A deactivated account. -/
def userInactive : UserRow :=
  { id := 2, username := "bob", hashed_password := "HASH-B", is_active := false }

/-- Credential oracles for the login witnesses. -/
def authEnvW : AuthEnv :=
  { verify_password := fun pw hash => hash = "HASH-" ++ pw,
    create_access_token := fun sub => "token-" ++ sub,
    nowTime := 0 }

/-- The backtick character (obtained from a string literal). -/
def btChar : Char := "`".data.headD ' '

/-! ## Lemmas about the realtime fan-out -/

/-- When no element at index `≥ i` fails, the send loop delivers to every
remaining connection and leaves the list untouched. -/
theorem sendLoop_noFail (fails : Nat → Bool) :
    ∀ (n : Nat) (lst : List Nat) (i : Nat) (d : List Nat), lst.length - i ≤ n →
      (∀ c ∈ lst.drop i, fails c = false) →
      sendLoop fails lst i d = (lst, d ++ lst.drop i) := by
  intro n
  induction n with
  | zero =>
    intro lst i d hn h
    have hi : ¬ i < lst.length := by omega
    rw [sendLoop]
    simp [hi]
    omega
  | succ n ih =>
    intro lst i d hn h
    rw [sendLoop]
    by_cases hi : i < lst.length
    · have hdrop := List.drop_eq_getElem_cons hi
      have hget : lst.get ⟨i, hi⟩ = lst[i] := by rw [List.get_eq_getElem]
      have hc : lst[i] ∈ lst.drop i := by rw [hdrop]; exact List.mem_cons_self _ _
      have hf : fails (lst.get ⟨i, hi⟩) = false := by rw [hget]; exact h _ hc
      simp only [hi, dif_pos, hf, Bool.false_eq_true, if_false]
      rw [ih lst (i + 1) (d ++ [lst.get ⟨i, hi⟩]) (by omega)
          (fun c hcm => h c (by rw [hdrop]; exact List.mem_cons_of_mem _ hcm))]
      rw [hdrop, hget]
      simp
    · simp [hi]
      omega

/-- Shifting the loop index past an untouched head element: as long as the
head never reappears later (the registry holds each websocket object once),
the loop at index `i + 1` over `a :: L` behaves as the loop at `i` over `L`
with `a` kept in front. -/
theorem sendLoop_cons_shift (fails : Nat → Bool) :
    ∀ (n : Nat) (L : List Nat) (a : Nat) (i : Nat) (d : List Nat), L.length - i ≤ n →
      a ∉ L →
      sendLoop fails (a :: L) (i + 1) d =
        ((sendLoop fails L i d).1.cons a, (sendLoop fails L i d).2) := by
  intro n
  induction n with
  | zero =>
    intro L a i d hn ha
    have hi : ¬ i < L.length := by omega
    have hi' : ¬ i + 1 < (a :: L).length := by simp; omega
    rw [sendLoop, sendLoop]
    simp [hi, hi']
  | succ n ih =>
    intro L a i d hn ha
    by_cases hi : i < L.length
    · have hi' : i + 1 < (a :: L).length := by simp; omega
      have hget : (a :: L).get ⟨i + 1, hi'⟩ = L.get ⟨i, hi⟩ := by
        simp [List.get_eq_getElem]
      rw [sendLoop]
      conv_rhs => rw [sendLoop]
      by_cases hf : fails (L.get ⟨i, hi⟩)
      · have hmem : L.get ⟨i, hi⟩ ∈ L := List.get_mem _ _ _
        have hne : a ≠ L.get ⟨i, hi⟩ := fun hEq => ha (hEq ▸ hmem)
        have herase : (a :: L).erase (L.get ⟨i, hi⟩) = a :: L.erase (L.get ⟨i, hi⟩) :=
          List.erase_cons_tail (by simpa using hne)
        simp only [hi, hi', dif_pos, hget, hf, if_true]
        rw [herase]
        exact ih (L.erase (L.get ⟨i, hi⟩)) a (i + 1) d
          (by have := List.length_erase_of_mem hmem; omega)
          (fun hmem2 => ha (List.mem_of_mem_erase hmem2))
      · simp only [hi, hi', dif_pos, hget, hf, if_false]
        exact ih L a (i + 1) (d ++ [L.get ⟨i, hi⟩]) (by omega) ha
    · have hi' : ¬ i + 1 < (a :: L).length := by simp; omega
      rw [sendLoop, sendLoop]
      simp [hi, hi']

/-- Behaviour of the send loop on a registration list with exactly one
failing connection `y`: the prefix `xs` is delivered, `y` is removed, the
element right after `y` is skipped, and the rest of `ys` is delivered. -/
theorem sendLoop_one_failure (fails : Nat → Bool) :
    ∀ (xs : List Nat) (y : Nat) (ys : List Nat) (d : List Nat),
      fails y = true →
      (∀ x ∈ xs, fails x = false) →
      (∀ z ∈ ys, fails z = false) →
      (xs ++ y :: ys).Nodup →
      sendLoop fails (xs ++ y :: ys) 0 d = (xs ++ ys, d ++ xs ++ ys.drop 1) := by
  intro xs
  induction xs with
  | nil =>
    intro y ys d hy _ hys hnd
    rw [sendLoop]
    simp [hy]
    rw [sendLoop_noFail fails ys.length ys 1 d (by omega)
        (fun c hc => hys c (List.mem_of_mem_drop hc))]
    simp
  | cons x xs ih =>
    intro y ys d hy hxs hys hnd
    have hfx : fails x = false := hxs x (List.mem_cons_self _ _)
    rw [sendLoop]
    simp [hfx]
    have hx_notin : x ∉ xs ++ y :: ys := (List.nodup_cons.mp (by simpa using hnd)).1
    have hshift := sendLoop_cons_shift fails (xs ++ y :: ys).length (xs ++ y :: ys) x 0
      (d ++ [x]) (by omega) hx_notin
    simp only [Nat.zero_add] at hshift
    rw [hshift]
    rw [ih y ys (d ++ [x]) hy (fun a ha => hxs a (List.mem_cons_of_mem _ ha)) hys
        (List.Nodup.of_cons (by simpa using hnd))]
    simp

/-- Updating an existing registry entry is visible to a subsequent lookup. -/
theorem regLookup_regSet_self (reg : Registry) (u : Nat) (c l : List Nat)
    (h : regLookup reg u = some c) : regLookup (regSet reg u l) u = some l := by
  induction reg with
  | nil => simp [regLookup] at h
  | cons p reg ih =>
    obtain ⟨k, v⟩ := p
    by_cases hp : k = u
    · subst hp
      simp [regLookup, regSet]
    · have h' : regLookup reg u = some c := by
        simpa [regLookup, List.find?_cons, hp] using h
      have hrec := ih h'
      simp only [regSet, List.map_cons] at hrec ⊢
      simp only [hp, if_false]
      simp only [regLookup, List.find?_cons] at hrec ⊢
      simpa [hp] using hrec

/-- Appending a fresh registry entry is visible to a subsequent lookup. -/
theorem regLookup_append_fresh (reg : Registry) (u : Nat) (l : List Nat)
    (h : regLookup reg u = none) : regLookup (reg ++ [(u, l)]) u = some l := by
  induction reg with
  | nil => simp [regLookup]
  | cons p reg ih =>
    by_cases hp : p.1 = u
    · simp [regLookup, hp] at h
    · simp [regLookup, hp] at h ⊢
      simpa [regLookup, hp] using ih (by simpa [regLookup] using h)

/-- After `connect reg ws u`, looking up `u` yields a list ending in `ws`. -/
theorem regLookup_connect (reg : Registry) (ws u : Nat) :
    ∃ conns, regLookup (ConnectionManager.connect reg ws u) u = some conns ∧ ws ∈ conns := by
  unfold ConnectionManager.connect
  cases h : regLookup reg u with
  | none => exact ⟨[ws], regLookup_append_fresh reg u [ws] h, by simp⟩
  | some conns =>
    exact ⟨conns ++ [ws], regLookup_regSet_self reg u conns (conns ++ [ws]) h, by simp⟩

/-- C3 (counterexample): account 1 has connections `[10, 20, 30]`; only 10
fails its send.  The claim promises every other connection of the account
still receives the payload, but the delivered list is `[30]`: connection 20
(which did not fail) was skipped by the remove-while-iterating loop. -/
theorem C3_counterexample :
    ConnectionManager.send_personal_message (fun c => c == 10) [(1, [10, 20, 30])] 1 =
      ([(1, [20, 30])], [30]) ∧
    (fun c : Nat => c == 10) 20 = false ∧ (20 : Nat) ∉ ([30] : List Nat) := by
  refine ⟨?_, by decide, by decide⟩
  have hloop := sendLoop_one_failure (fun c => c == 10) [] 10 [20, 30] []
    (by decide) (by decide) (by decide) (by decide)
  simp only [List.nil_append] at hloop
  unfold ConnectionManager.send_personal_message
  have hlk : regLookup [(1, [10, 20, 30])] 1 = some [10, 20, 30] := by decide
  rw [hlk]
  simp only [hloop]
  decide

/-- C3 (amended): `send_personal_message` to an account with no registered
connection is a no-op; when one connection fails during the broadcast it is
removed from the registry and the broadcast is not aborted, but the
connection immediately following the failed one in the account's list is
skipped for that broadcast (it stays registered and receives nothing), while
the prefix before the failed connection and everything after the skipped
slot are delivered. -/
theorem C3_send_personal_amended :
    (∀ (fails : Nat → Bool) (reg : Registry) (uid : Nat),
       regLookup reg uid = none →
       ConnectionManager.send_personal_message fails reg uid = (reg, [])) ∧
    (∀ (fails : Nat → Bool) (reg : Registry) (uid : Nat) (xs : List Nat) (y : Nat)
       (ys : List Nat),
       regLookup reg uid = some (xs ++ y :: ys) →
       fails y = true →
       (∀ x ∈ xs, fails x = false) →
       (∀ z ∈ ys, fails z = false) →
       (xs ++ y :: ys).Nodup →
       xs ++ ys ≠ [] →
       ConnectionManager.send_personal_message fails reg uid =
         (regSet reg uid (xs ++ ys), xs ++ ys.drop 1)) := by
  constructor
  · intro fails reg uid h
    unfold ConnectionManager.send_personal_message
    rw [h]
  · intro fails reg uid xs y ys hlk hy hxs hys hnd hne
    unfold ConnectionManager.send_personal_message
    rw [hlk]
    have hloop := sendLoop_one_failure fails xs y ys [] hy hxs hys hnd
    simp only [List.nil_append] at hloop
    simp only [hloop]
    have : (xs ++ ys).isEmpty = false := by
      cases hxy : xs ++ ys with
      | nil => exact absurd hxy hne
      | cons a l => simp
    simp [this]

/-- C3 (witness): both amended conjuncts at concrete inputs — account 2 has
no entry, and account 1 has connections `[5, 10, 20, 30]` of which only 10
fails: 10 is pruned, 5 and 30 receive, 20 is skipped. -/
theorem C3_send_personal_amended_witness :
    ConnectionManager.send_personal_message (fun c => c == 10) [(1, [5, 10, 20, 30])] 2 =
      ([(1, [5, 10, 20, 30])], []) ∧
    ConnectionManager.send_personal_message (fun c => c == 10) [(1, [5, 10, 20, 30])] 1 =
      (regSet [(1, [5, 10, 20, 30])] 1 ([5] ++ [20, 30]), [5] ++ [30]) := by
  constructor
  · exact C3_send_personal_amended.1 (fun c => c == 10) [(1, [5, 10, 20, 30])] 2 (by decide)
  · exact C3_send_personal_amended.2 (fun c => c == 10) [(1, [5, 10, 20, 30])] 1
      [5] 10 [20, 30] (by decide) (by decide) (by decide) (by decide) (by decide) (by decide)

/-- C10: the realtime endpoint `/ws/{user_id}` registers the connecting
websocket under whatever account id appears in the path.  Its embedding
`websocket_endpoint` takes no credential at all (the handler declares no
authentication dependency), so for any registry state and any target
account, an arbitrary websocket gets registered under that account and
subsequently receives the payloads pushed to it. -/
theorem C10_ws_registration_unauthenticated :
    ∀ (reg : Registry) (target_account attacker_ws : Nat),
      (∃ conns, regLookup (websocket_endpoint reg attacker_ws target_account) target_account
          = some conns ∧ attacker_ws ∈ conns) ∧
      attacker_ws ∈ (ConnectionManager.send_personal_message (fun _ => false)
          (websocket_endpoint reg attacker_ws target_account) target_account).2 := by
  intro reg target_account attacker_ws
  obtain ⟨conns, hlk, hmem⟩ := regLookup_connect reg attacker_ws target_account
  refine ⟨⟨conns, hlk, hmem⟩, ?_⟩
  show attacker_ws ∈ (ConnectionManager.send_personal_message (fun _ => false)
      (ConnectionManager.connect reg attacker_ws target_account) target_account).2
  unfold ConnectionManager.send_personal_message
  rw [hlk]
  have hrun := sendLoop_noFail (fun _ => false) conns.length conns 0 [] (by omega)
    (fun c _ => rfl)
  simp only [hrun, List.drop_zero, List.nil_append]
  split
  · exact hmem
  · exact hmem

/-! ## Claim theorems about the credential layer -/

/-- C8: a login attempt with an unknown username, a password that does not
verify against the stored hash, or a deactivated account, fails with an
error status and neither creates nor returns an access token (the trace of
`create_access_token` calls is empty). -/
theorem C8_login_no_token_on_failure :
    (∀ (env : AuthEnv) (users : List UserRow) (username password : String),
       users.find? (fun u => u.username = username) = none →
       login env users username password =
         (.error { status_code := 401, detail := "Incorrect username or password" }, [])) ∧
    (∀ (env : AuthEnv) (users : List UserRow) (username password : String) (u : UserRow),
       users.find? (fun u => u.username = username) = some u →
       env.verify_password password u.hashed_password = false →
       login env users username password =
         (.error { status_code := 401, detail := "Incorrect username or password" }, [])) ∧
    (∀ (env : AuthEnv) (users : List UserRow) (username password : String) (u : UserRow),
       users.find? (fun u => u.username = username) = some u →
       env.verify_password password u.hashed_password = true →
       u.is_active = false →
       login env users username password =
         (.error { status_code := 400, detail := "Inactive user" }, [])) := by
  refine ⟨?_, ?_, ?_⟩
  · intro env users username password h
    unfold login
    rw [h]
  · intro env users username password u h hv
    unfold login
    rw [h]
    simp [hv]
  · intro env users username password u h hv ha
    unfold login
    rw [h]
    simp [hv, ha]

/-- C8 (witness): the wrong password `"Z"` for the active account and the
right password `"B"` for the deactivated account both fail without a token. -/
theorem C8_login_no_token_on_failure_witness :
    login authEnvW [userActive, userInactive] "alice" "Z" =
      (.error { status_code := 401, detail := "Incorrect username or password" }, []) ∧
    login authEnvW [userActive, userInactive] "bob" "B" =
      (.error { status_code := 400, detail := "Inactive user" }, []) := by
  constructor
  · exact C8_login_no_token_on_failure.2.1 authEnvW [userActive, userInactive] "alice" "Z"
      userActive (by decide) (by decide)
  · exact C8_login_no_token_on_failure.2.2 authEnvW [userActive, userInactive] "bob" "B"
      userInactive (by decide) (by decide) (by decide)

/-! ## Claim theorems about the Bridge Client -/

/-- Helper: with no usable bridge URL, `_call_bridge` returns the
config-error envelope and performs no network call. -/
theorem call_bridge_noUrl (cfg : PyDbConfig) (env : NetEnv) (action : String) (payload : JVal)
    (h : strTruthy (DatabaseService.bridgeUrl cfg) = false) :
    DatabaseService.call_bridge cfg env action payload =
      (.obj [("success", .bool false), ("message", .str "Bridge URL not provided")], []) := by
  unfold DatabaseService.call_bridge
  simp [h]

/-- Helper: when the driver connection fails, `connect` reports failure. -/
theorem connect_fst_false (cfg : PyDbConfig) (env : NetEnv)
    (h : env.directConnectOk = false) : (DatabaseService.connect cfg env).1 = false := by
  unfold DatabaseService.connect
  split_ifs <;> simp [h]

/-- Helper: the trace of `connect` never contains a bridge POST. -/
theorem connect_no_bridgePost (cfg : PyDbConfig) (env : NetEnv) (u a : String) :
    NetCall.bridgePost u a ∉ (DatabaseService.connect cfg env).2 := by
  unfold DatabaseService.connect
  split_ifs <;> simp

/-- C2 (counterexample): with no `bridge_url` configured but a reachable
direct database, `test_connection` attempts the direct driver connection (a
network call) and returns a `success:true` envelope — not the promised
`{success:false}`-without-network-calls. -/
theorem C2_counterexample :
    DatabaseService.bridgeUrl cfgNoBridge = none ∧
    DatabaseService.test_connection cfgNoBridge netDirectOk =
      (.obj [("success", .bool true),
             ("message", .str "Direct MySQL connection successful"),
             ("data", .obj [("connection_test", .num 1)]),
             ("method", .str "direct")],
       [.directConnect "mysql", .directSql "SELECT 1 as connection_test"]) :=
  ⟨rfl, rfl⟩

/-- C2 (amended): the bridge stage honours the claim — with no `bridge_url`
configured, `_call_bridge` returns `{success:false, message:"Bridge URL not
provided"}` without any network call — and each of the three operations
returns that envelope with no bridge POST in its trace whenever the direct
driver path (which each operation attempts first, and which may itself touch
the network) fails. -/
theorem C2_no_bridge_url_amended :
    (∀ (cfg : PyDbConfig) (env : NetEnv) (action : String) (payload : JVal),
       strTruthy (DatabaseService.bridgeUrl cfg) = false →
       DatabaseService.call_bridge cfg env action payload =
         (.obj [("success", .bool false), ("message", .str "Bridge URL not provided")], [])) ∧
    (∀ (cfg : PyDbConfig) (env : NetEnv),
       strTruthy (DatabaseService.bridgeUrl cfg) = false →
       env.directConnectOk = false →
       (DatabaseService.test_connection cfg env).1 =
         .obj [("success", .bool false), ("message", .str "Bridge URL not provided")] ∧
       ∀ u a, NetCall.bridgePost u a ∉ (DatabaseService.test_connection cfg env).2) ∧
    (∀ (cfg : PyDbConfig) (env : NetEnv),
       strTruthy (DatabaseService.bridgeUrl cfg) = false →
       env.directConnectOk = false →
       (DatabaseService.get_table_schema cfg env).1 =
         .obj [("success", .bool false), ("message", .str "Bridge URL not provided")] ∧
       ∀ u a, NetCall.bridgePost u a ∉ (DatabaseService.get_table_schema cfg env).2) ∧
    (∀ (cfg : PyDbConfig) (env : NetEnv) (q : String),
       strTruthy (DatabaseService.bridgeUrl cfg) = false →
       env.directConnectOk = false →
       (DatabaseService.execute_query cfg env q).1 =
         .obj [("success", .bool false), ("message", .str "Bridge URL not provided")] ∧
       ∀ u a, NetCall.bridgePost u a ∉ (DatabaseService.execute_query cfg env q).2) := by
  refine ⟨call_bridge_noUrl, ?_, ?_, ?_⟩
  · intro cfg env hb hd
    rcases hc : DatabaseService.connect cfg env with ⟨ok, t0⟩
    have hok : ok = false := by
      have := connect_fst_false cfg env hd
      rw [hc] at this
      exact this
    subst hok
    unfold DatabaseService.test_connection
    rw [hc]
    simp only [Bool.false_eq_true, if_false, ite_false]
    rw [call_bridge_noUrl cfg env "test" (DatabaseService.bridgePayload cfg) hb]
    refine ⟨rfl, ?_⟩
    intro u a hmem
    simp at hmem
    have := connect_no_bridgePost cfg env u a
    rw [hc] at this
    exact this hmem
  · intro cfg env hb hd
    rcases hc : DatabaseService.connect cfg env with ⟨ok, t0⟩
    have hok : ok = false := by
      have := connect_fst_false cfg env hd
      rw [hc] at this
      exact this
    subst hok
    unfold DatabaseService.get_table_schema
    rw [hc]
    simp only [Bool.false_eq_true, if_false, ite_false]
    rw [call_bridge_noUrl cfg env "schema" (DatabaseService.bridgePayload cfg) hb]
    refine ⟨rfl, ?_⟩
    intro u a hmem
    simp at hmem
    have := connect_no_bridgePost cfg env u a
    rw [hc] at this
    exact this hmem
  · intro cfg env q hb hd
    rcases hc : DatabaseService.connect cfg env with ⟨ok, t0⟩
    have hok : ok = false := by
      have := connect_fst_false cfg env hd
      rw [hc] at this
      exact this
    subst hok
    unfold DatabaseService.execute_query
    rw [hc]
    simp only [Bool.false_eq_true, if_false, ite_false]
    rw [call_bridge_noUrl cfg env "execute" _ hb]
    refine ⟨rfl, ?_⟩
    intro u a hmem
    simp at hmem
    have := connect_no_bridgePost cfg env u a
    rw [hc] at this
    exact this hmem

/-- C2 (witness): the bridge-less profile against the failing-direct network:
all three operations produce the config-error envelope with no bridge POST. -/
theorem C2_no_bridge_url_amended_witness :
    DatabaseService.call_bridge cfgNoBridge netDirectFail "test" (.obj []) =
      (.obj [("success", .bool false), ("message", .str "Bridge URL not provided")], []) ∧
    (DatabaseService.test_connection cfgNoBridge netDirectFail).1 =
      .obj [("success", .bool false), ("message", .str "Bridge URL not provided")] ∧
    (DatabaseService.get_table_schema cfgNoBridge netDirectFail).1 =
      .obj [("success", .bool false), ("message", .str "Bridge URL not provided")] ∧
    (DatabaseService.execute_query cfgNoBridge netDirectFail "SELECT 1").1 =
      .obj [("success", .bool false), ("message", .str "Bridge URL not provided")] ∧
    (NetCall.bridgePost "?action=test" "test") ∉
      (DatabaseService.test_connection cfgNoBridge netDirectFail).2 :=
  ⟨C2_no_bridge_url_amended.1 cfgNoBridge netDirectFail "test" (.obj []) (by decide),
   (C2_no_bridge_url_amended.2.1 cfgNoBridge netDirectFail (by decide) (by decide)).1,
   (C2_no_bridge_url_amended.2.2.1 cfgNoBridge netDirectFail (by decide) (by decide)).1,
   (C2_no_bridge_url_amended.2.2.2 cfgNoBridge netDirectFail "SELECT 1" (by decide) (by decide)).1,
   (C2_no_bridge_url_amended.2.1 cfgNoBridge netDirectFail (by decide) (by decide)).2
     "?action=test" "test"⟩

/-! ## Claim theorems about the active-profile invariant -/

/-- C9 (counterexample): profile 5 of account 1 is soft-deleted
(`is_active = false`), yet `GET /systems/5/schema` resolves it (the filter
checks only id and owner) and proceeds to the schema walk, executing the SQL
statements `SHOW TABLES` and ``DESCRIBE `orders` `` against the remote
database — SQL execution against a soft-deleted ConnectionProfile. -/
theorem C9_counterexample :
    sysInactive.is_active = false ∧
    (match get_system_schema dbsC9 netShowTables 1 5 with
     | .ok r => some r.2
     | .error _ => none) =
      some [NetCall.directConnect "mysql", .directSql "SHOW TABLES",
            .directSql "DESCRIBE `orders`"] :=
  ⟨rfl, rfl⟩

/-- C9 (amended): the chat-message path's system resolution filters on the
active flag, so a profile resolved there is always active; but
`get_system_schema` resolves by id and owner only and then always proceeds
to the schema walk of the resolved profile (its SQL/bridge activity is
exactly the `DatabaseService.get_table_schema` trace), so SQL execution can
be attempted against a soft-deleted profile through that endpoint. -/
theorem C9_active_filter_amended :
    (∀ (dbs : AppDb) (uid sid : Nat) (sys : UserSystemRow),
       chatResolveSystem dbs uid sid = some sys → sys.is_active = true) ∧
    (∀ (dbs : AppDb) (env : NetEnv) (uid sid : Nat) (sys : UserSystemRow),
       schemaResolveSystem dbs uid sid = some sys →
       get_system_schema dbs env uid sid =
         .ok (.obj [("system_id", .num sid),
                    ("system_name", .str sys.system_name),
                    ("schema", (DatabaseService.get_table_schema (dbConfigOfSystem sys) env).1),
                    ("table_count",
                     .num ((DatabaseService.get_table_schema (dbConfigOfSystem sys) env).1).olength)],
               (DatabaseService.get_table_schema (dbConfigOfSystem sys) env).2)) := by
  constructor
  · intro dbs uid sid sys h
    unfold chatResolveSystem at h
    have hp := List.find?_some h
    simp only [decide_eq_true_eq] at hp
    exact hp.2.2
  · intro dbs env uid sid sys h
    unfold get_system_schema
    rw [h]

/-- C9 (witness): the chat filter really yields an active profile for a
concrete store, and the schema endpoint really proceeds on the soft-deleted
profile 5. -/
theorem C9_active_filter_amended_witness :
    sysActive3.is_active = true ∧
    get_system_schema dbsC9 netShowTables 1 5 =
      .ok (.obj [("system_id", .num 5),
                 ("system_name", .str sysInactive.system_name),
                 ("schema",
                  (DatabaseService.get_table_schema (dbConfigOfSystem sysInactive) netShowTables).1),
                 ("table_count",
                  .num ((DatabaseService.get_table_schema (dbConfigOfSystem sysInactive)
                            netShowTables).1).olength)],
            (DatabaseService.get_table_schema (dbConfigOfSystem sysInactive) netShowTables).2) :=
  ⟨C9_active_filter_amended.1 dbsChat 7 3 sysActive3 (by decide),
   C9_active_filter_amended.2 dbsC9 netShowTables 1 5 sysInactive (by decide)⟩

/-! ## Claim theorems about the AI orchestration -/

/-- C6: when the schema fetch succeeds but yields an empty schema dict, the
orchestration returns the canned no-tables response with `success = true`
and null SQL/result, and its call trace is exactly the one schema fetch — no
generative-model call and no SQL execution. -/
theorem C6_empty_schema_canned :
    ∀ (env : AiEnv) (db : DbOracle) (q : String) (r : JVal),
      db.get_table_schema = .ok r →
      (r.get "success").truthy = true →
      r.getD "schema" (.obj []) = .obj [] →
      GeminiService.process_free_form_chat env db q =
        ({ response := "Saya sudah terhubung ke database, tetapi tidak menemukan tabel apapun. Pastikan database Anda berisi tabel, atau mungkin database yang berbeda?",
           sql_query := none, query_result := none, success := true },
         [SvcCall.schemaFetch]) := by
  intro env db q r hok hs he
  have hexp : GeminiService.explore_database_adaptively db =
      ({ status := "no_tables", tables := [] }, [.schemaFetch]) := by
    unfold GeminiService.explore_database_adaptively
    rw [hok]
    simp [hs, he, JVal.truthy]
  unfold GeminiService.process_free_form_chat
  rw [hexp]
  rfl

/-- C6 (witness): a successful schema fetch carrying `schema = {}`. -/
theorem C6_empty_schema_canned_witness :
    GeminiService.process_free_form_chat envUnused dbEmptySchema "berapa penjualan?" =
      ({ response := "Saya sudah terhubung ke database, tetapi tidak menemukan tabel apapun. Pastikan database Anda berisi tabel, atau mungkin database yang berbeda?",
         sql_query := none, query_result := none, success := true },
       [SvcCall.schemaFetch]) :=
  C6_empty_schema_canned envUnused dbEmptySchema "berapa penjualan?"
    (.obj [("success", .bool true), ("schema", .obj []), ("table_count", .num 0),
           ("method", .str "direct")])
    rfl (by decide) rfl

/-- C4 (counterexample): the schema fetch raises (`"boom"`), which is a
bridge/database call raising inside the orchestration, yet the result has
`success = true` and a response without the exception text: the exploration
step caught the exception itself (`status = "error"`) and the flow carried
on to the model, so the promised `success=false` envelope never appears. -/
theorem C4_counterexample :
    dbSchemaRaises.get_table_schema = .error "boom" ∧
    (GeminiService.process_free_form_chat envGenHalo dbSchemaRaises "hai").1 =
      { response := "Halo!", sql_query := none, query_result := none, success := true } :=
  ⟨rfl, rfl⟩

/-- C4 (amended): exceptions raised by the model invocation, and exceptions
raised by `execute_query` when running the extracted SQL, are caught at the
orchestration boundary and become the `success=false` envelope whose
response carries the exception text (so the function returns instead of
raising); exceptions raised during the schema/sampling exploration are
caught inside the exploration instead and do not produce that envelope. -/
theorem C4_exception_envelope_amended :
    (∀ (env : AiEnv) (db : DbOracle) (q e : String),
       (GeminiService.explore_database_adaptively db).1.status ≠ "no_tables" →
       (∀ p, env.generate p = .error e) →
       (GeminiService.process_free_form_chat env db q).1 =
         { response := "âŒ Maaf, ada gangguan teknis: " ++ e,
           sql_query := none, query_result := none, success := false }) ∧
    (∀ (env : AiEnv) (db : DbOracle) (q e txt : String),
       (GeminiService.explore_database_adaptively db).1.status ≠ "no_tables" →
       (∀ p, env.generate p = .ok txt) →
       strTruthy (GeminiService.extract_sql_query (pyStrip txt)) = true →
       db.execute_query ((GeminiService.extract_sql_query (pyStrip txt)).getD "") = .error e →
       (GeminiService.process_free_form_chat env db q).1 =
         { response := "âŒ Maaf, ada gangguan teknis: " ++ e,
           sql_query := none, query_result := none, success := false }) := by
  constructor
  · intro env db q e hnt hg
    unfold GeminiService.process_free_form_chat
    rcases hexp : GeminiService.explore_database_adaptively db with ⟨ex, tr0⟩
    rw [hexp] at hnt
    simp only at hnt
    simp [hexp, hnt, hg, GeminiService.gangguanResult]
  · intro env db q e txt hnt hg hsql hexec
    unfold GeminiService.process_free_form_chat
    rcases hexp : GeminiService.explore_database_adaptively db with ⟨ex, tr0⟩
    rw [hexp] at hnt
    simp only at hnt
    simp [hexp, hnt, hg, hsql, hexec, GeminiService.gangguanResult]

/-- C4 (witness): a raising model call and a raising `execute_query` on the
extracted SQL both yield the apologetic `success=false` envelope. -/
theorem C4_exception_envelope_amended_witness :
    (GeminiService.process_free_form_chat envGenDown dbOneTable "berapa produk?").1 =
      { response := "âŒ Maaf, ada gangguan teknis: API down",
        sql_query := none, query_result := none, success := false } ∧
    (GeminiService.process_free_form_chat envGenSql dbOneTable "pilih produk").1 =
      { response := "âŒ Maaf, ada gangguan teknis: SQL error",
        sql_query := none, query_result := none, success := false } :=
  ⟨C4_exception_envelope_amended.1 envGenDown dbOneTable "berapa produk?" "API down"
     (by decide) (fun _ => rfl),
   C4_exception_envelope_amended.2 envGenSql dbOneTable "pilih produk" "SQL error"
     "Saya cek. [SQL: SELECT * FROM products]" (by decide) (fun _ => rfl) (by decide) rfl⟩

/-! ## Claim theorems about the chat-message route -/

/-- C1: the call at chat.py:200-205 passes keyword arguments the signature
`process_chat_message(self, user_query, db_service)` does not accept, so it
never binds (`kwargsAccepted = false`); consequently, whenever an active
bound profile resolves and the schema probe returns a truthy envelope, the
request takes the exception arm, persists exactly the user row plus an
AI-authored row whose text is the `"Maaf, terjadi error: ..."` fallback with
null SQL/result, and the orchestration trace stays empty — the AI pipeline
is never executed through this endpoint. -/
theorem C1_broken_kwargs_error_fallback :
    kwargsAccepted send_chat_message_call_kwargs process_chat_message_params = false ∧
    (∀ (env : ChatEnv) (dbs : AppDb) (uid sid : Nat) (md : ChatMessageCreateSchema)
       (session : ChatSessionRow) (sys : UserSystemRow),
       dbs.sessions.find? (fun s => s.id = sid ∧ s.user_id = uid) = some session →
       natTruthy (pyOrNat md.system_id session.system_id) = true →
       chatResolveSystem dbs uid ((pyOrNat md.system_id session.system_id).getD 0) = some sys →
       (DatabaseService.get_table_schema (dbConfigOfSystem sys) env.net).1.truthy = true →
       send_chat_message env dbs uid sid md =
         .ok { dbs := { dbs with messages := dbs.messages ++
                 [{ session_id := sid, user_id := uid, message := md.message, is_user := true,
                    sql_query := none, query_result := none },
                  { session_id := sid, user_id := uid,
                    message := "Maaf, terjadi error: " ++
                      typeErrorText "process_chat_message" "table_schema",
                    is_user := false, sql_query := none, query_result := none }] },
               ai_message := { session_id := sid, user_id := uid,
                               message := "Maaf, terjadi error: " ++
                                 typeErrorText "process_chat_message" "table_schema",
                               is_user := false, sql_query := none, query_result := none },
               probeTrace := (DatabaseService.get_table_schema (dbConfigOfSystem sys) env.net).2,
               orchTrace := [] }) := by
  constructor
  · decide
  · intro env dbs uid sid md session sys hfind hnat hsys hts
    rcases hg : DatabaseService.get_table_schema (dbConfigOfSystem sys) env.net with ⟨ts, tr⟩
    rw [hg] at hts
    simp only at hts
    have hkw : kwargsAccepted send_chat_message_call_kwargs process_chat_message_params
        = false := by decide
    have hukw : unexpectedKwarg send_chat_message_call_kwargs process_chat_message_params
        = some "table_schema" := by decide
    unfold send_chat_message
    rw [hfind]
    simp [hnat, hsys, hg, hts, hkw, hukw]

/-- C7: a message into an owned session with no bound profile and no
`system_id` on the request persists exactly two new rows — the user-authored
text and the fixed AI-authored guidance — both with null SQL and result, and
touches neither the network nor the model. -/
theorem C7_no_system_two_rows :
    ∀ (env : ChatEnv) (dbs : AppDb) (uid sid : Nat) (md : ChatMessageCreateSchema)
      (session : ChatSessionRow),
      dbs.sessions.find? (fun s => s.id = sid ∧ s.user_id = uid) = some session →
      md.system_id = none →
      session.system_id = none →
      send_chat_message env dbs uid sid md =
        .ok { dbs := { dbs with messages := dbs.messages ++
                [{ session_id := sid, user_id := uid, message := md.message, is_user := true,
                   sql_query := none, query_result := none },
                 { session_id := sid, user_id := uid,
                   message := "Silakan pilih sistem terlebih dahulu atau hubungkan sistem Anda untuk bertanya tentang data.",
                   is_user := false, sql_query := none, query_result := none }] },
              ai_message := { session_id := sid, user_id := uid,
                              message := "Silakan pilih sistem terlebih dahulu atau hubungkan sistem Anda untuk bertanya tentang data.",
                              is_user := false, sql_query := none, query_result := none },
              probeTrace := [], orchTrace := [] } := by
  intro env dbs uid sid md session hfind hmd hsess
  unfold send_chat_message
  rw [hfind]
  simp [hmd, hsess, pyOrNat, natTruthy]

/-- C1 (witness): account 7 posts into session 1 (bound to active profile 3);
the persisted AI row is the `TypeError` fallback and no orchestration ran. -/
theorem C1_broken_kwargs_error_fallback_witness :
    send_chat_message chatEnvW dbsChat 7 1 { message := "halo data" } =
      .ok { dbs := { dbsChat with messages := dbsChat.messages ++
              [{ session_id := 1, user_id := 7, message := "halo data", is_user := true,
                 sql_query := none, query_result := none },
               { session_id := 1, user_id := 7,
                 message := "Maaf, terjadi error: " ++
                   typeErrorText "process_chat_message" "table_schema",
                 is_user := false, sql_query := none, query_result := none }] },
            ai_message := { session_id := 1, user_id := 7,
                            message := "Maaf, terjadi error: " ++
                              typeErrorText "process_chat_message" "table_schema",
                            is_user := false, sql_query := none, query_result := none },
            probeTrace := (DatabaseService.get_table_schema (dbConfigOfSystem sysActive3)
                             chatEnvW.net).2,
            orchTrace := [] } :=
  C1_broken_kwargs_error_fallback.2 chatEnvW dbsChat 7 1 { message := "halo data" }
    sessionBound sysActive3 (by decide) (by decide) (by decide) (by decide)

/-- C7 (witness): account 7 posts into the unbound session 2 with no
`system_id`: exactly the two fixed rows are persisted. -/
theorem C7_no_system_two_rows_witness :
    send_chat_message chatEnvW dbsChat 7 2 { message := "hai" } =
      .ok { dbs := { dbsChat with messages := dbsChat.messages ++
              [{ session_id := 2, user_id := 7, message := "hai", is_user := true,
                 sql_query := none, query_result := none },
               { session_id := 2, user_id := 7,
                 message := "Silakan pilih sistem terlebih dahulu atau hubungkan sistem Anda untuk bertanya tentang data.",
                 is_user := false, sql_query := none, query_result := none }] },
            ai_message := { session_id := 2, user_id := 7,
                            message := "Silakan pilih sistem terlebih dahulu atau hubungkan sistem Anda untuk bertanya tentang data.",
                            is_user := false, sql_query := none, query_result := none },
            probeTrace := [], orchTrace := [] } :=
  C7_no_system_two_rows chatEnvW dbsChat 7 2 { message := "hai" } sessionUnbound
    (by decide) rfl rfl

/-! ## Lemmas about the regex-search embedding -/

/-- Search succeeds immediately when the pattern sits at the front. -/
theorem findSubAux_of_isPrefixOf (pat s : List Char) (k : Nat) (h : pat.isPrefixOf s) :
    findSubAux pat s k = some k := by
  cases s with
  | nil =>
    have hp : pat = [] := List.prefix_nil.mp (List.isPrefixOf_iff_prefix.mp h)
    simp [findSubAux, hp]
  | cons c rest => simp [findSubAux, h]

/-- Search skips a block that is free of the pattern's head character. -/
theorem findSubAux_append_skip (pat : List Char) (c0 : Char) (rest : List Char)
    (hpat : pat = c0 :: rest) :
    ∀ (A B : List Char) (k : Nat), (∀ c ∈ A, c ≠ c0) →
      findSubAux pat (A ++ B) k = findSubAux pat B (k + A.length) := by
  intro A
  induction A with
  | nil => simp
  | cons a A ih =>
    intro B k hA
    have ha : a ≠ c0 := hA a (List.mem_cons_self _ _)
    have hnp : ¬ pat.isPrefixOf (a :: (A ++ B)) = true := by
      rw [hpat]
      simp only [List.isPrefixOf, Bool.and_eq_true, beq_iff_eq]
      intro hcontra
      exact ha hcontra.1.symm
    simp only [List.cons_append, findSubAux, List.append_eq, hnp, if_false]
    rw [ih B (k + 1) (fun c hc => hA c (List.mem_cons_of_mem _ hc))]
    have harith : k + 1 + A.length = k + (a :: A).length := by
      simp [List.length_cons]
      omega
    rw [harith]
    simp

/-- A successful search returns an index at least the running offset. -/
theorem findSubAux_ge (pat : List Char) :
    ∀ (s : List Char) (k m : Nat), findSubAux pat s k = some m → k ≤ m := by
  intro s
  induction s with
  | nil =>
    intro k m h
    by_cases hp : pat = []
    · simp [findSubAux, hp] at h
      omega
    · simp [findSubAux, hp] at h
  | cons c rest ih =>
    intro k m h
    by_cases hpre : pat.isPrefixOf (c :: rest)
    · simp [findSubAux, hpre] at h
      omega
    · simp only [findSubAux, hpre, if_false] at h
      have := ih (k + 1) m h
      omega

/-- Failure of the search from offset `k` means the pattern heads no suffix. -/
theorem findSubAux_none_iff (pat : List Char) :
    ∀ (s : List Char) (k : Nat),
      findSubAux pat s k = none ↔ ∀ j, ¬ pat.isPrefixOf (s.drop j) = true := by
  intro s
  induction s with
  | nil =>
    intro k
    constructor
    · intro h j
      by_cases hp : pat = [] <;> simp [findSubAux, hp] at h ⊢
    · intro h
      have := h 0
      simp at this
      simp [findSubAux, this]
  | cons c rest ih =>
    intro k
    constructor
    · intro h j
      by_cases hpre : pat.isPrefixOf (c :: rest)
      · simp [findSubAux, hpre] at h
      · simp only [findSubAux, hpre, if_false] at h
        cases j with
        | zero => simpa using hpre
        | succ j => exact ((ih (k + 1)).mp h) j
    · intro h
      have hpre : ¬ pat.isPrefixOf (c :: rest) = true := by simpa using h 0
      simp only [findSubAux, hpre, if_false]
      exact (ih (k + 1)).mpr (fun j => by simpa using h (j + 1))

/-- With no occurrence anywhere, the search fails from every start. -/
theorem findSubFrom_none_of_occurs_false (s pat : List Char) (start : Nat)
    (h : occursSub s pat = false) : findSubFrom s pat start = none := by
  unfold occursSub at h
  have hnone : findSubAux pat s 0 = none := by
    cases hx : findSubAux pat s 0 with
    | none => rfl
    | some m => rw [hx] at h; simp at h
  have hall := (findSubAux_none_iff pat s 0).mp hnone
  unfold findSubFrom
  have : findSubAux pat (s.drop start) 0 = none := by
    rw [findSubAux_none_iff]
    intro j
    rw [List.drop_drop]
    exact hall (start + j)
  rw [this]
  rfl

/-- A stopper with `p b = false` right after `A` bounds `takeWhile` to `A`. -/
theorem takeWhile_append_stop (p : Char → Bool) (b : Char) (hb : p b = false) :
    ∀ (A R : List Char), (A ++ b :: R).takeWhile p = A.takeWhile p := by
  intro A R
  induction A with
  | nil => simp [List.takeWhile_cons, hb]
  | cons a A ih =>
    by_cases hpa : p a
    · simp [List.takeWhile_cons, hpa, ih]
    · simp [List.takeWhile_cons, hpa]

/-- Dropping a satisfied prefix twice is the same as dropping it once. -/
theorem dropWhile_idem (p : Char → Bool) (l : List Char) :
    (l.dropWhile p).dropWhile p = l.dropWhile p := by
  induction l with
  | nil => simp
  | cons a l ih =>
    by_cases hpa : p a
    · simp [List.dropWhile_cons, hpa, ih]
    · simp [List.dropWhile_cons, hpa]

/-- Python `strip` ignores an already-dropped whitespace prefix. -/
theorem pyStripList_dropWhile (l : List Char) :
    pyStripList (l.dropWhile pyIsSpace) = pyStripList l := by
  unfold pyStripList
  rw [dropWhile_idem]

/-- Fenced-block extraction: on a text made of a backtick-free prefix, a
```sql fence, a backtick-free body and a closing fence, `_extract_sql_query`
returns the stripped body. -/
theorem extract_fenced_block (pre mid post : List Char)
    (hpre : ∀ c ∈ pre, c ≠ btChar) (hmid : ∀ c ∈ mid, c ≠ btChar) :
    GeminiService.extract_sql_query ⟨pre ++ ("```sql".data ++ (mid ++ ("```".data ++ post)))⟩ =
      some ⟨pyStripList mid⟩ := by
  have h1 : findSubAux ("```sql".data)
      (pre ++ ("```sql".data ++ (mid ++ ("```".data ++ post)))) 0 = some (0 + pre.length) := by
    rw [findSubAux_append_skip ("```sql".data) btChar ("``sql".data) rfl pre _ 0 hpre]
    exact findSubAux_of_isPrefixOf _ _ _
      (List.isPrefixOf_iff_prefix.mpr (List.prefix_append _ _))
  have h2 : findSubFrom (pre ++ ("```sql".data ++ (mid ++ ("```".data ++ post))))
      ("```sql".data) 0 = some pre.length := by
    unfold findSubFrom
    rw [List.drop_zero, h1]
    simp
  have h3 : (pre ++ ("```sql".data ++ (mid ++ ("```".data ++ post)))).drop (pre.length + 6) =
      mid ++ ("```".data ++ post) := by
    rw [← List.drop_drop]
    rw [List.drop_left]
    rfl
  have h4 : findSubFrom (pre ++ ("```sql".data ++ (mid ++ ("```".data ++ post))))
      ("```".data) (pre.length + 6) = some (mid.length + (pre.length + 6)) := by
    unfold findSubFrom
    rw [h3]
    rw [findSubAux_append_skip ("```".data) btChar ("``".data) rfl mid _ 0 hmid]
    rw [findSubAux_of_isPrefixOf _ _ _
      (List.isPrefixOf_iff_prefix.mpr (List.prefix_append _ _))]
    simp
  have hloop : reFencedSqlLoop (pre ++ ("```sql".data ++ (mid ++ ("```".data ++ post))))
      ((pre ++ ("```sql".data ++ (mid ++ ("```".data ++ post)))).length + 1) 0 =
      some (pyStripList mid) := by
    rw [reFencedSqlLoop]
    simp only [h2, h4, Nat.add_sub_cancel, h3, List.take_left]
  unfold GeminiService.extract_sql_query
  simp only [hloop]

/-- Bracket-marker extraction: on a text with no ```sql fence, made of a
bracket-free prefix, a `[SQL:` marker, a newline-free and `]`-free body and
the closing `]`, `_extract_sql_query` returns the stripped body. -/
theorem extract_bracket_marker (pre mid post : List Char)
    (hfen : occursSub (pre ++ ("[SQL:".data ++ (mid ++ ("]".data ++ post))))
      ("```sql".data) = false)
    (hpre : ∀ c ∈ pre, c ≠ '[')
    (hrb : ∀ c ∈ mid, c ≠ ']')
    (hnl : ∀ c ∈ mid, c ≠ '\n') :
    GeminiService.extract_sql_query ⟨pre ++ ("[SQL:".data ++ (mid ++ ("]".data ++ post)))⟩ =
      some ⟨pyStripList mid⟩ := by
  have hmidB_rb : ∀ c ∈ mid.dropWhile pyIsSpace, c ≠ ']' :=
    fun c hc => hrb c ((List.dropWhile_sublist pyIsSpace).subset hc)
  have hmidB_nl : ∀ c ∈ mid.dropWhile pyIsSpace, c ≠ '\n' :=
    fun c hc => hnl c ((List.dropWhile_sublist pyIsSpace).subset hc)
  have hfnone : reFencedSqlLoop (pre ++ ("[SQL:".data ++ (mid ++ ("]".data ++ post))))
      ((pre ++ ("[SQL:".data ++ (mid ++ ("]".data ++ post)))).length + 1) 0 = none := by
    rw [reFencedSqlLoop]
    rw [findSubFrom_none_of_occurs_false _ _ 0 hfen]
  have ha : findSubFrom (pre ++ ("[SQL:".data ++ (mid ++ ("]".data ++ post))))
      ("[SQL:".data) 0 = some pre.length := by
    unfold findSubFrom
    rw [List.drop_zero]
    rw [findSubAux_append_skip ("[SQL:".data) '[' ("SQL:".data) rfl pre _ 0 hpre]
    rw [findSubAux_of_isPrefixOf _ _ _
      (List.isPrefixOf_iff_prefix.mpr (List.prefix_append _ _))]
    simp
  have hdrop5 : (pre ++ ("[SQL:".data ++ (mid ++ ("]".data ++ post)))).drop (pre.length + 5) =
      mid ++ ("]".data ++ post) := by
    rw [← List.drop_drop]
    rw [List.drop_left]
    rfl
  have hbrk : mid ++ ("]".data ++ post) = mid ++ (']' :: post) := rfl
  have hrunlen : (((pre ++ ("[SQL:".data ++ (mid ++ ("]".data ++ post)))).drop
      (pre.length + 5)).takeWhile pyIsSpace).length = (mid.takeWhile pyIsSpace).length := by
    rw [hdrop5, hbrk, takeWhile_append_stop pyIsSpace ']' (by decide) mid post]
  have hsplit : mid ++ (']' :: post) =
      (mid.takeWhile pyIsSpace) ++ ((mid.dropWhile pyIsSpace) ++ (']' :: post)) := by
    rw [← List.append_assoc, List.takeWhile_append_dropWhile]
  have hdropRun : (pre ++ ("[SQL:".data ++ (mid ++ ("]".data ++ post)))).drop
      (pre.length + 5 + (mid.takeWhile pyIsSpace).length) =
      (mid.dropWhile pyIsSpace) ++ (']' :: post) := by
    rw [← List.drop_drop]
    rw [hdrop5, hbrk, hsplit]
    rw [List.drop_left]
  have hclose : findSubFrom (pre ++ ("[SQL:".data ++ (mid ++ ("]".data ++ post)))) ("]".data)
      (pre.length + 5 + (mid.takeWhile pyIsSpace).length) =
      some ((mid.dropWhile pyIsSpace).length +
        (pre.length + 5 + (mid.takeWhile pyIsSpace).length)) := by
    unfold findSubFrom
    rw [hdropRun]
    rw [findSubAux_append_skip ("]".data) ']' [] rfl (mid.dropWhile pyIsSpace) _ 0 hmidB_rb]
    rw [findSubAux_of_isPrefixOf ("]".data) (']' :: post)
      (0 + (mid.dropWhile pyIsSpace).length)
      (List.isPrefixOf_iff_prefix.mpr ⟨post, rfl⟩)]
    simp
  have hnlstep : findSubFrom (pre ++ ("[SQL:".data ++ (mid ++ ("]".data ++ post)))) ("\n".data)
      (pre.length + 5 + (mid.takeWhile pyIsSpace).length) =
      (findSubAux ("\n".data) post (0 + (mid.dropWhile pyIsSpace).length + 1)).map
        (· + (pre.length + 5 + (mid.takeWhile pyIsSpace).length)) := by
    unfold findSubFrom
    rw [hdropRun]
    rw [findSubAux_append_skip ("\n".data) '\n' [] rfl (mid.dropWhile pyIsSpace) _ 0 hmidB_nl]
    have hnp : ¬ ("\n".data).isPrefixOf (']' :: post) = true := by
      simp [List.isPrefixOf]
    have hstep : findSubAux ("\n".data) (']' :: post) (0 + (mid.dropWhile pyIsSpace).length) =
        findSubAux ("\n".data) post (0 + (mid.dropWhile pyIsSpace).length + 1) := by
      rw [findSubAux]
      rw [if_neg hnp]
    rw [hstep]
  have hslice : ((pre ++ ("[SQL:".data ++ (mid ++ ("]".data ++ post)))).drop
      (pre.length + 5 + (mid.takeWhile pyIsSpace).length)).take
        ((mid.dropWhile pyIsSpace).length +
          (pre.length + 5 + (mid.takeWhile pyIsSpace).length) -
         (pre.length + 5 + (mid.takeWhile pyIsSpace).length)) =
      mid.dropWhile pyIsSpace := by
    rw [Nat.add_sub_cancel, hdropRun, List.take_left]
  have hbloop : reBracketSqlLoop (pre ++ ("[SQL:".data ++ (mid ++ ("]".data ++ post))))
      ((pre ++ ("[SQL:".data ++ (mid ++ ("]".data ++ post)))).length + 1) 0 =
      some (pyStripList (mid.dropWhile pyIsSpace)) := by
    rw [reBracketSqlLoop]
    simp only [ha, hrunlen, hclose, hnlstep]
    cases hm : findSubAux ['\n'] post (0 + (mid.dropWhile pyIsSpace).length + 1) with
    | none =>
      simp only [hm, Option.map_none']
      simp only [hslice]
    | some m =>
      have hge := findSubAux_ge ['\n'] post _ m hm
      simp only [hm, Option.map_some']
      rw [if_neg (by omega)]
      simp only [hslice]
  unfold GeminiService.extract_sql_query
  simp only [hfnone, hbloop]
  rw [pyStripList_dropWhile]

/-- With neither a ```sql fence anchor nor a `[SQL:` anchor anywhere in the
text, `_extract_sql_query` returns `None`. -/
theorem extract_none_of_no_markers (s : List Char)
    (h1 : occursSub s ("```sql".data) = false)
    (h2 : occursSub s ("[SQL:".data) = false) :
    GeminiService.extract_sql_query ⟨s⟩ = none := by
  have hf : reFencedSqlLoop s (s.length + 1) 0 = none := by
    rw [reFencedSqlLoop]
    rw [findSubFrom_none_of_occurs_false s _ 0 h1]
  have hb : reBracketSqlLoop s (s.length + 1) 0 = none := by
    rw [reBracketSqlLoop]
    rw [findSubFrom_none_of_occurs_false s _ 0 h2]
  unfold GeminiService.extract_sql_query
  simp only [hf, hb]

/-- A `None` extraction is not an error: the model's text stands as the final
answer with `success = true` and null SQL/result, and after the single model
call no further database call happens (the trace is the exploration trace
plus exactly one `genContent`). -/
theorem free_form_no_sql_text_stands :
    ∀ (env : AiEnv) (db : DbOracle) (q txt : String),
      (GeminiService.explore_database_adaptively db).1.status ≠ "no_tables" →
      (∀ p, env.generate p = .ok txt) →
      GeminiService.extract_sql_query (pyStrip txt) = none →
      ∃ p, GeminiService.process_free_form_chat env db q =
        ({ response := pyStrip txt, sql_query := none, query_result := none, success := true },
         (GeminiService.explore_database_adaptively db).2 ++ [SvcCall.genContent p]) := by
  intro env db q txt hnt hg hext
  unfold GeminiService.process_free_form_chat
  rcases hexp : GeminiService.explore_database_adaptively db with ⟨ex, tr0⟩
  rw [hexp] at hnt
  simp only at hnt
  refine ⟨GeminiService.build_adaptive_prompt q (GeminiService.prepare_database_context ex) ex, ?_⟩
  simp [hnt, hg, hext, strTruthy]

/-- C5: `_extract_sql_query` returns the (stripped) content of a fenced
```sql code block when one is present; otherwise the content of a bracketed
`[SQL: ...]` marker when one is present; otherwise `None` — and a `None`
extraction is not an error: the AI text stands as the final answer with
`success = true` and no SQL execution is attempted after the model call. -/
theorem C5_extract_sql_query :
    (∀ pre mid post : List Char,
       (∀ c ∈ pre, c ≠ btChar) → (∀ c ∈ mid, c ≠ btChar) →
       GeminiService.extract_sql_query
           ⟨pre ++ ("```sql".data ++ (mid ++ ("```".data ++ post)))⟩ =
         some ⟨pyStripList mid⟩) ∧
    (∀ pre mid post : List Char,
       occursSub (pre ++ ("[SQL:".data ++ (mid ++ ("]".data ++ post))))
         ("```sql".data) = false →
       (∀ c ∈ pre, c ≠ '[') → (∀ c ∈ mid, c ≠ ']') → (∀ c ∈ mid, c ≠ '\n') →
       GeminiService.extract_sql_query
           ⟨pre ++ ("[SQL:".data ++ (mid ++ ("]".data ++ post)))⟩ =
         some ⟨pyStripList mid⟩) ∧
    (∀ s : List Char,
       occursSub s ("```sql".data) = false → occursSub s ("[SQL:".data) = false →
       GeminiService.extract_sql_query ⟨s⟩ = none) ∧
    (∀ (env : AiEnv) (db : DbOracle) (q txt : String),
       (GeminiService.explore_database_adaptively db).1.status ≠ "no_tables" →
       (∀ p, env.generate p = .ok txt) →
       GeminiService.extract_sql_query (pyStrip txt) = none →
       ∃ p, GeminiService.process_free_form_chat env db q =
         ({ response := pyStrip txt, sql_query := none, query_result := none, success := true },
          (GeminiService.explore_database_adaptively db).2 ++ [SvcCall.genContent p])) :=
  ⟨extract_fenced_block, extract_bracket_marker, extract_none_of_no_markers,
   free_form_no_sql_text_stands⟩

/-- C5 (witness): a fenced block, a bracketed marker, a marker-free text, and
an orchestration run whose answer carries no SQL. -/
theorem C5_extract_sql_query_witness :
    GeminiService.extract_sql_query
        ⟨"Jawab: ".data ++ ("```sql".data ++ (" SELECT 1 ".data ++ ("```".data ++ "!".data)))⟩ =
      some ⟨pyStripList (" SELECT 1 ".data)⟩ ∧
    GeminiService.extract_sql_query
        ⟨"Saya cek. ".data ++ ("[SQL:".data ++ (" SELECT 2 ".data ++ ("]".data ++ " ok".data)))⟩ =
      some ⟨pyStripList (" SELECT 2 ".data)⟩ ∧
    GeminiService.extract_sql_query ⟨"tidak ada".data⟩ = none ∧
    (∃ p, GeminiService.process_free_form_chat envGenHalo dbOneTable "halo" =
       ({ response := pyStrip "Halo!", sql_query := none, query_result := none, success := true },
        (GeminiService.explore_database_adaptively dbOneTable).2 ++ [SvcCall.genContent p])) :=
  ⟨C5_extract_sql_query.1 ("Jawab: ".data) (" SELECT 1 ".data) ("!".data)
     (by decide) (by decide),
   C5_extract_sql_query.2.1 ("Saya cek. ".data) (" SELECT 2 ".data) (" ok".data)
     (by decide) (by decide) (by decide) (by decide),
   C5_extract_sql_query.2.2.1 ("tidak ada".data) (by decide) (by decide),
   C5_extract_sql_query.2.2.2 envGenHalo dbOneTable "halo" "Halo!"
     (by decide) (fun _ => rfl) rfl⟩
